import Mathlib

set_option maxRecDepth 100000
set_option maxHeartbeats 2000000

/-!
Shallow embedding of the skrapp hosted-crawl service core, used to settle
the specification claims C1-C10.

Embedded source files: `src/db/queries.py`, `src/worker/finalizer.py`,
`src/worker/runner.py`, `src/worker/stuck_detector.py`,
`src/worker/blocking_detector.py`, `src/crawler/quality_scorer.py`,
`src/crawler/pipelines.py`, `src/crawler/url_utils.py`,
`src/config/constants.py`, `src/config/settings.py`.

Modelling conventions:
- SQLite rows are Lean structures; tables are association lists.
- Python ints are `Nat`/`Int`.  The blocking-detector response rates are
  exact rationals `ℚ`, matching the exact arithmetic of the
  specification tables.  The quality-score accumulation is binary64
  (IEEE-754 double) arithmetic, embedded exactly as integers scaled by
  2^70: every double the scorer can produce is an integer multiple of
  2^-70, `f64fromPQS p q` is the correctly rounded (nearest,
  ties-to-even) double of the rational p/q, and subtraction and
  CPython's `round(x, 3)` are built from it.
- Python strings are Lean strings; `str.lower`, `str.strip` and the
  percent codec are embedded at ASCII fidelity (the repository only
  routes ASCII constants through them).
- Fallible file I/O is a parameter (`Bool` for existence, `Except` for a
  read that may raise); database event logging is returned as a value.
-/

namespace Skrapp

/-! ## src/config/constants.py -/

namespace JobState

def QUEUED : String := "queued"

def RUNNING : String := "running"

def FINALIZING : String := "finalizing"

def DONE : String := "done"

def FAILED : String := "failed"

def EXPIRED : String := "expired"

def TERMINAL : List String := [DONE, FAILED, EXPIRED]

def ACTIVE : List String := [QUEUED, RUNNING, FINALIZING]

end JobState

namespace SiteStatus

def NORMAL : String := "normal"

def THROTTLED : String := "throttled"

def BLOCKED : String := "blocked"

def ROBOTS_DENIED : String := "robots_denied"

def LOGIN_REQUIRED : String := "login_required"

def UNKNOWN : String := "unknown"

end SiteStatus

namespace BlockingSignal

def EXCESSIVE_429 : String := "excessive_429"

def EXCESSIVE_403 : String := "excessive_403"

def CAPTCHA : String := "captcha_detected"

def LOGIN_REDIRECT : String := "login_redirect"

def DUPLICATE_CONTENT : String := "duplicate_content_high"

end BlockingSignal

/-! ## src/config/settings.py (the constants the claims depend on) -/

def BLOCKING_429_THRESHOLD : ℚ := 1/5

def BLOCKING_403_THRESHOLD : ℚ := 3/10

def DUPLICATE_HASH_THRESHOLD : ℚ := 1/2

def MIN_TEXT_LENGTH_SUCCESS : Nat := 200

def CONCURRENT_JOBS_PER_IP : Nat := 5

/-- Python `round(x, 3)`: scores and ratios in this code base are rounded to
three decimals before being stored.  All values this development evaluates it
on are integer multiples of `1/10`, where rounding is the identity, so the
tie-breaking mode of Python's `round` is unobservable here. -/
def roundTo3 (q : ℚ) : ℚ := (round (q * 1000) : ℤ) / 1000

/-! ## src/db/queries.py - IP usage table (`ip_usage`)

The table maps `ip_hash` to `concurrent_count`.  `ip_hash` is the primary
key, and the SQL statements of `increment_ip_concurrent` /
`decrement_ip_concurrent` act on all rows with the given key, which the
association-list model reproduces with `List.map`. `concurrent_count` is a
SQLite INTEGER and is modelled as `Int` so that non-negativity is a
property to prove, not a typing artifact. -/

abbrev IpTable := List (String × Int)

/-- `get_ip_concurrent_count` (queries.py:251): `SELECT concurrent_count
FROM ip_usage WHERE ip_hash = ?`, defaulting to 0 when no row exists. -/
def get_ip_concurrent_count (t : IpTable) (ip : String) : Int :=
  match t.find? (fun e => e.1 == ip) with
  | some e => e.2
  | none => 0

/-- `increment_ip_concurrent` (queries.py:260): `INSERT .. VALUES (?, 1, ?)
ON CONFLICT(ip_hash) DO UPDATE SET concurrent_count = concurrent_count + 1`. -/
def increment_ip_concurrent (t : IpTable) (ip : String) : IpTable :=
  if t.any (fun e => e.1 == ip) then
    t.map (fun e => if e.1 == ip then (e.1, e.2 + 1) else e)
  else
    t ++ [(ip, 1)]

/-- `decrement_ip_concurrent` (queries.py:279): `UPDATE ip_usage SET
concurrent_count = MAX(0, concurrent_count - 1) WHERE ip_hash = ?`.
A missing row is left missing (the UPDATE matches no row). -/
def decrement_ip_concurrent (t : IpTable) (ip : String) : IpTable :=
  t.map (fun e => if e.1 == ip then (e.1, max 0 (e.2 - 1)) else e)

/-- A client-visible operation on the IP usage table. -/
inductive IpOp where
  | incr (ip : String)
  | decr (ip : String)
deriving Repr

def applyIpOp (t : IpTable) : IpOp → IpTable
  | .incr ip => increment_ip_concurrent t ip
  | .decr ip => decrement_ip_concurrent t ip

def applyIpOps (t : IpTable) (ops : List IpOp) : IpTable :=
  ops.foldl applyIpOp t

/-! ## src/worker/blocking_detector.py -/

/-- The per-job tracker evidence read from `blocking_evidence.json`
(`tracker_evidence` in `analyze_blocking_signals`).  Each field is the
`.get(key, default)` of the corresponding JSON key; `status_codes` is the
status-code histogram. -/
structure TrackerEvidence where
  total_responses : Nat
  status_codes : List (Nat × Nat)
  captcha_hits : Nat
  waf_hits : Nat
  login_redirects : Nat
  duplicate_ratio : ℚ
  sample_urls : List String
  signature_hits : List String
deriving Repr, DecidableEq

/-- `status_codes.get(c, 0)` on the histogram. -/
def statusCodeCount (codes : List (Nat × Nat)) (c : Nat) : Nat :=
  match codes.find? (fun e => e.1 == c) with
  | some e => e.2
  | none => 0

/-- The `evidence` dict built at blocking_detector.py:98-112. -/
structure EvidenceSummary where
  signals_detected : List String
  total : Nat
  count2xx : Nat
  count4xx : Nat
  count5xx : Nat
  captcha_hits : Nat
  waf_hits : Nat
  login_redirects : Nat
  duplicate_ratio : ℚ
  sample_urls : List String
  signature_hits : List String
deriving Repr, DecidableEq

def sumCodesInRange (codes : List (Nat × Nat)) (lo hi : Nat) : Nat :=
  (codes.filter (fun e => decide (lo ≤ e.1) && decide (e.1 < hi))).foldl
    (fun acc e => acc + e.2) 0

/-- `analyze_blocking_signals` (blocking_detector.py:13-114).  Returns the
site status, the evidence summary (`none` models the empty dict returned on
the `total_responses == 0` early exit), and the list of
`BLOCKED_DETECTED` job-event signals written along the way. -/
def analyze_blocking_signals (ev : TrackerEvidence) :
    String × Option EvidenceSummary × List String :=
  if ev.total_responses = 0 then
    (SiteStatus.UNKNOWN, none, [])
  else
    let rate429 : ℚ := (statusCodeCount ev.status_codes 429 : ℚ) / ev.total_responses
    let rate403 : ℚ := (statusCodeCount ev.status_codes 403 : ℚ) / ev.total_responses
    let branch : String × List String :=
      if ev.captcha_hits > 0 ∨ ev.waf_hits > 0 then
        (SiteStatus.BLOCKED, [BlockingSignal.CAPTCHA])
      else if (ev.login_redirects : ℚ) > (ev.total_responses : ℚ) * (1/2) then
        (SiteStatus.LOGIN_REQUIRED, [BlockingSignal.LOGIN_REDIRECT])
      else if rate429 ≥ BLOCKING_429_THRESHOLD then
        (SiteStatus.THROTTLED, [BlockingSignal.EXCESSIVE_429])
      else if rate403 ≥ BLOCKING_403_THRESHOLD then
        (SiteStatus.BLOCKED, [BlockingSignal.EXCESSIVE_403])
      else if ev.duplicate_ratio ≥ DUPLICATE_HASH_THRESHOLD then
        (SiteStatus.BLOCKED, [BlockingSignal.DUPLICATE_CONTENT])
      else
        (SiteStatus.NORMAL, [])
    let summary : EvidenceSummary :=
      { signals_detected := branch.2
        total := ev.total_responses
        count2xx := sumCodesInRange ev.status_codes 200 300
        count4xx := sumCodesInRange ev.status_codes 400 500
        count5xx := sumCodesInRange ev.status_codes 500 600
        captcha_hits := ev.captcha_hits
        waf_hits := ev.waf_hits
        login_redirects := ev.login_redirects
        duplicate_ratio := roundTo3 ev.duplicate_ratio
        sample_urls := ev.sample_urls
        signature_hits := ev.signature_hits }
    (branch.1, some summary, branch.2)

/-- The classification table of spec §4.6, written from the claim: first
matching row wins, in table order. -/
def blockingTableStatus (ev : TrackerEvidence) : String :=
  if ev.captcha_hits + ev.waf_hits > 0 then SiteStatus.BLOCKED
  else if (ev.login_redirects : ℚ) > (1/2) * (ev.total_responses : ℚ) then
    SiteStatus.LOGIN_REQUIRED
  else if (statusCodeCount ev.status_codes 429 : ℚ) / ev.total_responses ≥ 1/5 then
    SiteStatus.THROTTLED
  else if (statusCodeCount ev.status_codes 403 : ℚ) / ev.total_responses ≥ 3/10 then
    SiteStatus.BLOCKED
  else if ev.duplicate_ratio ≥ 1/2 then SiteStatus.BLOCKED
  else SiteStatus.NORMAL

/-! ## src/db/queries.py - the `jobs` row and its update operations

Only the fields the claims exercise are carried; every one of them exists
as a column of the `jobs` table. -/

structure Job where
  id : String
  state : String
  startedAt : Option String
  finishedAt : Option String
  restartCount : Nat
  fallbackRetryCount : Nat
  pagesFetched : Nat
  pagesExported : Nat
  lastError : Option String
  siteStatus : Option String
  crawlerStrategy : Option String
  requesterIpHash : String
  updatedAt : String
deriving Repr, DecidableEq

/-- The `**kwargs` of `update_job` / `update_job_state`: each field is
`some v` when the caller passed the keyword and `none` otherwise. -/
structure JobPatch where
  state : Option String
  startedAt : Option String
  finishedAt : Option String
  restartCount : Option Nat
  fallbackRetryCount : Option Nat
  pagesFetched : Option Nat
  pagesExported : Option Nat
  lastError : Option (Option String)
  siteStatus : Option String
  crawlerStrategy : Option String
deriving Repr, DecidableEq

def emptyPatch : JobPatch :=
  { state := none, startedAt := none, finishedAt := none, restartCount := none
    fallbackRetryCount := none, pagesFetched := none, pagesExported := none
    lastError := none, siteStatus := none, crawlerStrategy := none }

/-- `update_job` (queries.py:82-98): `UPDATE jobs SET <kwargs>,
updated_at = now WHERE id = ?`. -/
def update_job (j : Job) (p : JobPatch) (now : String) : Job :=
  { j with
    state := p.state.getD j.state
    startedAt := (p.startedAt.map some).getD j.startedAt
    finishedAt := (p.finishedAt.map some).getD j.finishedAt
    restartCount := p.restartCount.getD j.restartCount
    fallbackRetryCount := p.fallbackRetryCount.getD j.fallbackRetryCount
    pagesFetched := p.pagesFetched.getD j.pagesFetched
    pagesExported := p.pagesExported.getD j.pagesExported
    lastError := p.lastError.getD j.lastError
    siteStatus := (p.siteStatus.map some).getD j.siteStatus
    crawlerStrategy := (p.crawlerStrategy.map some).getD j.crawlerStrategy
    updatedAt := now }

/-- `update_job_state` (queries.py:101-122) on a fetched row:
`kwargs['state'] = new_state`; sets `started_at` when first entering
RUNNING and `finished_at` when first entering a TERMINAL state; then
`update_job` and a STATE_CHANGE event.  There is no check of the current
state before the update. -/
def update_job_state_core (j : Job) (newState : String) (p : JobPatch)
    (now : String) : Job :=
  let p := { p with state := some newState }
  let p := if newState = JobState.RUNNING ∧ j.startedAt = none then
    { p with startedAt := some now } else p
  let p := if newState ∈ JobState.TERMINAL ∧ j.finishedAt = none then
    { p with finishedAt := some now } else p
  update_job j p now

/-- `update_job_state` including the `if not job: return None` guard. -/
def update_job_state (j? : Option Job) (newState : String) (p : JobPatch)
    (now : String) : Option Job :=
  match j? with
  | none => none
  | some j => some (update_job_state_core j newState p now)

/-- `increment_restart_count` (queries.py:160-173):
`new_count = job['restart_count'] + 1; update_job(job_id, restart_count=new_count)`. -/
def increment_restart_count (j : Job) (now : String) : Job :=
  update_job j { emptyPatch with restartCount := some (j.restartCount + 1) } now

/-- Modelled from the spec: `create_job` (queries.py:28) INSERTs a row
without a `restart_count` value, so the initial value comes from the jobs
table schema, whose migration files are not part of `src/`.  Spec §8
(restart bound) together with scenario 5 (`restart_count=1` after the
first restart) fixes the schema default at 0; the job starts QUEUED with
no timestamps set. -/
def create_job (id ipHash now : String) : Job :=
  { id := id, state := JobState.QUEUED, startedAt := none, finishedAt := none
    restartCount := 0, fallbackRetryCount := 0, pagesFetched := 0
    pagesExported := 0, lastError := none, siteStatus := none
    crawlerStrategy := none, requesterIpHash := ipHash, updatedAt := now }

/-! ## src/worker/stuck_detector.py -/

def MAX_RESTARTS : Nat := 2

/-- Outcome of handling one job: the updated row and how many times
`decrement_ip_concurrent` was called for the job's requester IP. -/
structure HandledJob where
  job : Job
  ipDecrements : Nat
deriving Repr, DecidableEq

/-- The per-job body of `_handle_orphaned_jobs` (stuck_detector.py:68-101):
restart (increment restart count, back to QUEUED) while
`restart_count < MAX_RESTARTS`, otherwise FAIL with reason `orphaned` and
release the IP slot. -/
def handle_orphaned_job (j : Job) (now : String) : HandledJob :=
  if j.restartCount < MAX_RESTARTS then
    let j1 := increment_restart_count j now
    { job := update_job_state_core j1 JobState.QUEUED emptyPatch now
      ipDecrements := 0 }
  else
    { job := update_job_state_core j JobState.FAILED
        { emptyPatch with lastError := some (some "orphaned") } now
      ipDecrements := 1 }

/-- The per-job body of `_handle_stalled_jobs` (stuck_detector.py:112-149);
same restart policy as the orphan handler, reason `stalled`. -/
def handle_stalled_job (j : Job) (now : String) : HandledJob :=
  if j.restartCount < MAX_RESTARTS then
    let j1 := increment_restart_count j now
    { job := update_job_state_core j1 JobState.QUEUED emptyPatch now
      ipDecrements := 0 }
  else
    { job := update_job_state_core j JobState.FAILED
        { emptyPatch with lastError := some (some "stalled") } now
      ipDecrements := 1 }

/-- The per-job body of `_handle_hard_stalled_jobs`
(stuck_detector.py:160-181): unconditional FAIL with reason
`hard_stalled` and IP release; no restart. -/
def handle_hard_stalled_job (j : Job) (now : String) : HandledJob :=
  { job := update_job_state_core j JobState.FAILED
      { emptyPatch with lastError := some (some "hard_stalled") } now
    ipDecrements := 1 }

/-! ## src/worker/finalizer.py -/

/-- The stats dict returned by `_deduplicate_pages` (finalizer.py:102). -/
structure DedupStats where
  total_raw : Nat
  total_deduped : Nat
  duplicates_removed : Nat
deriving Repr, DecidableEq

/-- Outcome of `finalize_job`: the updated job row (`none` when the job id
was unknown), the boolean return value, and how many times
`decrement_ip_concurrent` was called for the job's requester IP. -/
structure FinalizeResult where
  job : Option Job
  returnValue : Bool
  ipDecrements : Nat
deriving Repr, DecidableEq

/-- `finalize_job` (finalizer.py:20-99) at the level of its job-state and
IP-counter effects.  `rawFileExists` is the `os.path.exists(raw_file)`
test; `dedupOutcome` is the result of `_deduplicate_pages`, `.error`
modelling the exception branch (finalizer.py:55-62).  The summary,
knowledge-base and artifact steps swallow their own exceptions and touch
neither the job state nor the IP counter, so they do not appear. -/
def finalize_job (j? : Option Job) (rawFileExists : Bool)
    (dedupOutcome : Except String DedupStats) (now : String) : FinalizeResult :=
  match j? with
  | none => { job := none, returnValue := false, ipDecrements := 0 }
  | some job =>
    let j1 := update_job_state_core job JobState.FINALIZING emptyPatch now
    if rawFileExists = false then
      let j2 := update_job_state_core j1 JobState.DONE
        { emptyPatch with pagesExported := some 0 } now
      { job := some j2, returnValue := true, ipDecrements := 0 }
    else
      match dedupOutcome with
      | .error msg =>
        let j2 := update_job_state_core j1 JobState.FAILED
          { emptyPatch with lastError := some (some ("finalization_failed:" ++ msg)) } now
        { job := some j2, returnValue := false, ipDecrements := 0 }
      | .ok stats =>
        let j2 := update_job_state_core j1 JobState.DONE
          { emptyPatch with pagesExported := some stats.total_deduped } now
        { job := some j2, returnValue := true, ipDecrements := 1 }

/-- The failure epilogue of `run_job` (runner.py:182-197): when the crawl
was unsuccessful and the re-fetched job is still RUNNING, transition to
FAILED with reason `unknown` and decrement the IP counter once. -/
def run_job_failure_epilogue (j : Job) (now : String) : HandledJob :=
  if j.state = JobState.RUNNING then
    { job := update_job_state_core j JobState.FAILED
        { emptyPatch with lastError := some (some "unknown") } now
      ipDecrements := 1 }
  else
    { job := j, ipDecrements := 0 }

/-! ## The job-mutating operations of the worker and API

Each constructor is one of the call sites in `src/` that mutates a job
row (runner.py, finalizer.py, stuck_detector.py, api/routes/jobs.py,
heartbeat via `update_heartbeat`).  `increment_restart_count` has exactly
one kind of caller: the guarded restart branches of the stuck detector. -/
inductive WorkerOp where
  | lease (now : String)
  | setStrategy (s : String) (now : String)
  | heartbeat (pages : Option Nat) (now : String)
  | recordFallback (now : String)
  | setBlockingStatus (status : String) (now : String)
  | detectOrphaned (now : String)
  | detectStalled (now : String)
  | detectHardStalled (now : String)
  | finalize (rawFileExists : Bool) (dedupOutcome : Except String DedupStats) (now : String)
  | runnerFail (now : String)
  | expireSweep (now : String)

/-- The effect of each operation on the job row, assembled from the
embedded source functions. -/
def applyWorkerOp (j : Job) : WorkerOp → Job
  | .lease now => update_job_state_core j JobState.RUNNING emptyPatch now
  | .setStrategy s now =>
    update_job j { emptyPatch with crawlerStrategy := some s } now
  | .heartbeat pages now =>
    update_job j { emptyPatch with pagesFetched := pages } now
  | .recordFallback now =>
    update_job j
      { emptyPatch with
        fallbackRetryCount := some 1
        crawlerStrategy := some "scrapy_fallback_playwright" } now
  | .setBlockingStatus s now =>
    update_job j { emptyPatch with siteStatus := some s } now
  | .detectOrphaned now => (handle_orphaned_job j now).job
  | .detectStalled now => (handle_stalled_job j now).job
  | .detectHardStalled now => (handle_hard_stalled_job j now).job
  | .finalize rawExists dedup now =>
    ((finalize_job (some j) rawExists dedup now).job).getD j
  | .runnerFail now => (run_job_failure_epilogue j now).job
  | .expireSweep now => update_job_state_core j JobState.EXPIRED emptyPatch now

def applyWorkerOps (j : Job) (ops : List WorkerOp) : Job :=
  ops.foldl applyWorkerOp j

/-! ## src/crawler/quality_scorer.py

String primitives are embedded at ASCII fidelity: `str.lower`,
`str.strip`, and regex search for the literal boilerplate phrase
patterns (each of which is an alternation of fixed words, an anchored
prefix, or a whole-line match; `$` with no MULTILINE flag also matches
just before one trailing newline). -/

def isPySpaceChar (c : Char) : Bool :=
  c == ' ' || c == '\t' || c == '\n' || c == '\r' || c == '\x0b' || c == '\x0c'

def pyLower (s : String) : String :=
  String.mk (s.data.map Char.toLower)

def pyStrip (s : String) : String :=
  String.mk (((s.data.dropWhile isPySpaceChar).reverse.dropWhile isPySpaceChar).reverse)

/-- `pat in s` / an unanchored `re.search` of a literal pattern. -/
def containsSub (s pat : String) : Bool :=
  s.data.tails.any (fun t => pat.data.isPrefixOf t)

/-- `re.search` of a `^literal` pattern (no MULTILINE flag: `^` is the
start of the string). -/
def startsWithPat (s pat : String) : Bool :=
  pat.data.isPrefixOf s.data

/-- `re.search` of a `^literal$` pattern (no MULTILINE flag: `$` matches
at the end of the string or just before a trailing newline). -/
def wholeStringPat (s pat : String) : Bool :=
  s == pat || s == pat ++ "\n"

/-- `BOILERPLATE_PHRASES` (quality_scorer.py:19-54), one matcher per
compiled pattern, operating on the already-lowercased text. -/
def boilerplateMatchers : List (String → Bool) :=
  [ fun t => containsSub t "page is loading"
  , fun t => containsSub t "please wait"
  , fun t => containsSub t "loading..."
  , fun t => containsSub t "halaman ini sedang dimuat"
  , fun t => containsSub t "enable javascript"
  , fun t => containsSub t "javascript is required"
  , fun t => containsSub t "please enable cookies"
  , fun t => wholeStringPat t "search"
  , fun t => wholeStringPat t "menu"
  , fun t => wholeStringPat t "navigation"
  , fun t => startsWithPat t "skip to content" || startsWithPat t "skip to main content"
  , fun t => startsWithPat t "back to top"
  , fun t => startsWithPat t "table of contents"
  , fun t => containsSub t "share this article" || containsSub t "share this page"
  , fun t => containsSub t "share on facebook" || containsSub t "share on twitter"
      || containsSub t "share on linkedin"
  , fun t => containsSub t "follow us on"
  , fun t => containsSub t "subscribe to our"
  , fun t => containsSub t "we use cookies"
  , fun t => containsSub t "cookie policy" || containsSub t "cookie settings"
      || containsSub t "cookie preferences"
  , fun t => containsSub t "accept all cookies" || containsSub t "accept cookies"
  , fun t => containsSub t "privacy policy" || containsSub t "privacy notice"
  , fun t => containsSub t "all rights reserved"
  , fun t => containsSub t "terms of service" || containsSub t "terms and conditions"
  , fun t => containsSub t "contact us"
  , fun t => containsSub t "powered by" ]

/-- `count_boilerplate_matches` (quality_scorer.py:60-67). -/
def count_boilerplate_matches (text : String) : Nat :=
  let lowered := pyLower text
  (boilerplateMatchers.filter (fun m => m lowered)).length

/-- `re.findall` count for the pattern `<a\s` with IGNORECASE
(quality_scorer.py:79): matches never overlap, and the scan resumes
after each three-character match. -/
def countLinkTagsAux : List Char → Nat
  | '<' :: c :: w :: rest =>
    if (c == 'a' || c == 'A') && isPySpaceChar w then
      1 + countLinkTagsAux rest
    else
      countLinkTagsAux (c :: w :: rest)
  | _ :: rest => countLinkTagsAux rest
  | [] => 0

def countLinkTags (html : String) : Nat :=
  countLinkTagsAux html.data

/-- `calculate_link_density` (quality_scorer.py:70-85). -/
def calculate_link_density (text html : String) : ℚ :=
  if text = "" ∨ text.length < 10 then 1
  else
    let linkCount : Nat := if html = "" then 0 else countLinkTags html
    min 1 (((linkCount : ℚ) * 20) / (text.length : ℚ))

/-- `calculate_text_density` (quality_scorer.py:88-99). -/
def calculate_text_density (text html : String) : ℚ :=
  if html = "" ∨ html.length < 10 then 0
  else min 1 ((text.length : ℚ) / (html.length : ℚ))

/-- `str.split('\n')`: split at every newline, keeping empty pieces. -/
def splitNLAux : List Char → List Char → List String
  | [], acc => [String.mk acc]
  | c :: rest, acc =>
    if c = '\n' then String.mk acc :: splitNLAux rest []
    else splitNLAux rest (acc ++ [c])

def pySplitNL (s : String) : List String := splitNLAux s.data []

/-- `detect_duplicate_lines` (quality_scorer.py:102-118): strip each
line, drop blanks, count lines equal to their predecessor and longer
than 10 characters. -/
def detect_duplicate_lines (text : String) : Nat × Nat :=
  let lines := ((pySplitNL text).map pyStrip).filter (fun l => l ≠ "")
  if lines.length < 2 then (0, lines.length)
  else
    let step := fun (acc : Nat × Option String) (line : String) =>
      (acc.1 + (if acc.2 = some line ∧ line.length > 10 then 1 else 0), some line)
    ((lines.foldl step (0, none)).1, lines.length)

/-- Quality assessment result (`QualityScore` dataclass).  `reasons`
carries the source's reason tags without their formatted numeric
suffixes; the `metrics` dict is diagnostic output and is not carried. -/
structure QualityScore where
  score : ℚ
  passed : Bool
  reasons : List String
deriving Repr, DecidableEq

/-! #### Binary64 arithmetic for the score accumulator

The running `score` of `score_content` is a Python float, and its
comparison against 0.5 is reachable at the exact-arithmetic boundary
(`1.0 - 0.3 - 0.2` accumulates to `0.49999999999999994 < 0.5`), so the
accumulator is embedded with faithful IEEE-754 binary64 semantics:
values are integer multiples of `2⁻⁷⁰` (every double between `2⁻¹⁷` and
`2⁵³` lies on that grid), subtraction rounds the exact difference to the
nearest double with ties to even, and `round(score, 3)` rounds the exact
binary value to the nearest thousandth (ties to even) and then to the
nearest double, as CPython does.  Exponent overflow and subnormals are
outside the reachable value range and are not modelled.  The metric
ratios (densities) stay in exact rational arithmetic: their comparison
boundaries are reachable only at text sizes around `10¹⁶`, like the
response-rate thresholds of the blocking classifier. -/

/-- Bit length of a natural number, by fuel-bounded structural recursion
(kernel-reducible; 4096 bits covers every number this development
evaluates). -/
def bitLenAux : Nat → Nat → Nat
  | 0, _ => 0
  | fuel + 1, n => if n = 0 then 0 else bitLenAux fuel (n / 2) + 1

def bitLen (n : Nat) : Nat := bitLenAux 4096 n

/-- Round `n / u` (`u > 0`) to the nearest integer, ties to even - the
rounding of IEEE-754 round-to-nearest and of CPython's `round`. -/
def rteDiv (n u : ℤ) : ℤ :=
  let q := Int.fdiv n u
  let r := n - q * u
  if 2 * r < u then q
  else if u < 2 * r then q + 1
  else if q % 2 = 0 then q else q + 1

/-- Whether `2 ^ e0 ≤ a / b` (`a, b > 0`). -/
def pqGe (a b : Nat) (e0 : ℤ) : Bool :=
  if 0 ≤ e0 then decide (b * 2 ^ e0.toNat ≤ a) else decide (b ≤ a * 2 ^ (-e0).toNat)

/-- The binary64 value nearest to `p / q` (`q > 0`), ties to even,
returned as an integer multiple of `2⁻⁷⁰` (the significand `m` times
`2^(70 + e - 52)`).  For inputs already on the `2⁻⁷⁰` grid and for
magnitudes of at least `2⁻¹⁸` this is exactly IEEE-754 rounding; smaller
magnitudes are kept at the grid resolution (never reached here). -/
def f64fromPQS (p q : ℤ) : ℤ :=
  if p = 0 then 0
  else
    let a := p.natAbs
    let b := q.natAbs
    let e0 : ℤ := (bitLen a : ℤ) - (bitLen b : ℤ)
    let e : ℤ := if pqGe a b e0 then e0 else e0 - 1
    let s : ℤ := 52 - e
    let m : ℤ :=
      if 0 ≤ s then rteDiv (p * ((2 ^ s.toNat : ℕ) : ℤ)) q
      else rteDiv p (q * ((2 ^ (-s).toNat : ℕ) : ℤ))
    if s ≤ 70 then m * ((2 ^ (70 - s).toNat : ℕ) : ℤ)
    else rteDiv m ((2 ^ (s - 70).toNat : ℕ) : ℤ)

/-- Binary64 subtraction on the `2⁻⁷⁰` grid: the difference is exact on
the grid and is then rounded to the nearest double. -/
def fsubS (a b : ℤ) : ℤ := f64fromPQS (a - b) (2 ^ 70)

/-- The double of the Python literal `0.4`, scaled by `2⁷⁰`. -/
def F04S : ℤ := f64fromPQS 2 5

/-- The double of the Python literal `0.3`, scaled by `2⁷⁰`. -/
def F03S : ℤ := f64fromPQS 3 10

/-- The double of the Python literal `0.2`, scaled by `2⁷⁰`. -/
def F02S : ℤ := f64fromPQS 1 5

/-- The double of the Python literal `0.1`, scaled by `2⁷⁰`. -/
def F01S : ℤ := f64fromPQS 1 10

/-- The float `1.0`, scaled by `2⁷⁰`. -/
def oneS : ℤ := 2 ^ 70

/-- The float `0.5` (exact in binary), scaled by `2⁷⁰`. -/
def halfS : ℤ := 2 ^ 69

/-- The rational value of a scaled double. -/
def scaledToQ (n : ℤ) : ℚ := (n : ℚ) / 2 ^ 70

/-- The double of the literal `0.3` as a rational, the lower bound in
`should_retry_extraction`. -/
def F03Q : ℚ := scaledToQ F03S

/-- Python `round(v, 3)` for a float `v = n·2⁻⁷⁰`: the exact binary
value rounded to the nearest thousandth (ties to even), then the
binary64 value nearest to that decimal. -/
def pyRound3S (n : ℤ) : ℤ := f64fromPQS (rteDiv (n * 1000) (2 ^ 70)) 1000

/-- Boilerplate phrase density per 500 characters
(quality_scorer.py:161): `boilerplate_count / max(1, text_len / 500)`. -/
def boilerplateDensity (text : String) : ℚ :=
  (count_boilerplate_matches text : ℚ) / max 1 ((text.length : ℚ) / 500)

/-- Duplicate consecutive-line ratio (quality_scorer.py:185):
`dup_count / max(1, total_lines)`. -/
def duplicateLineRatio (text : String) : ℚ :=
  ((detect_duplicate_lines text).1 : ℚ) / max 1 (((detect_duplicate_lines text).2 : Nat) : ℚ)

/-- Deduction step 1 of `score_content` (text length): `score -= 0.4` /
`score -= 0.1` in binary64. -/
def lenStep (min_chars : Nat) (text_len : Nat) (sr : ℤ × List String) : ℤ × List String :=
  if text_len < min_chars then (fsubS sr.1 F04S, sr.2 ++ ["text_too_short"])
  else if text_len < min_chars * 2 then (fsubS sr.1 F01S, sr.2)
  else sr

/-- Deduction step 2 of `score_content` (boilerplate density), guarded by
`if text:`. -/
def boilerplateStep (max_boilerplate_ratio : ℚ) (text : String)
    (sr : ℤ × List String) : ℤ × List String :=
  if text ≠ "" then
    if boilerplateDensity text > max_boilerplate_ratio then
      (fsubS sr.1 F03S, sr.2 ++ ["high_boilerplate"])
    else if boilerplateDensity text > max_boilerplate_ratio * (1/2) then
      (fsubS sr.1 F01S, sr.2)
    else sr
  else sr

/-- Deduction step 3 of `score_content` (link density), guarded by
`if html:`. -/
def linkStep (max_link_density : ℚ) (text html : String)
    (sr : ℤ × List String) : ℤ × List String :=
  if html ≠ "" then
    if calculate_link_density text html > max_link_density then
      (fsubS sr.1 F03S, sr.2 ++ ["high_link_density"])
    else if calculate_link_density text html > max_link_density * (7/10) then
      (fsubS sr.1 F01S, sr.2)
    else sr
  else sr

/-- Deduction step 4 of `score_content` (duplicate lines), guarded by
`if text:`. -/
def dupStep (text : String) (sr : ℤ × List String) : ℤ × List String :=
  if text ≠ "" then
    if duplicateLineRatio text > 1/5 then (fsubS sr.1 F02S, sr.2 ++ ["duplicate_lines"])
    else sr
  else sr

/-- Deduction step 5 of `score_content` (text/HTML ratio), guarded by
`if html:`. -/
def densityStep (text html : String) (sr : ℤ × List String) : ℤ × List String :=
  if html ≠ "" then
    if calculate_text_density text html < 1/20 then
      (fsubS sr.1 F02S, sr.2 ++ ["low_text_density"])
    else sr
  else sr

/-- Deduction step 6 of `score_content` (missing title). -/
def titleStep (title : String) (sr : ℤ × List String) : ℤ × List String :=
  if title = "" ∨ (pyStrip title).length < 3 then
    (fsubS sr.1 F01S, sr.2 ++ ["missing_title"])
  else sr

/-- `score_content` (quality_scorer.py:121-221): base 1.0; the six
deduction steps in source order, accumulated in binary64; clamp to
[0.0, 1.0]; `passed` iff the clamped float is ≥ 0.5 and the text length
is ≥ `min_chars`; the returned score is the float rounded to three
decimals. -/
def score_content (text html title : String) (min_chars : Nat)
    (max_link_density max_boilerplate_ratio : ℚ) : QualityScore :=
  let text_len := text.length
  let sr : ℤ × List String := (oneS, [])
  let sr := lenStep min_chars text_len sr
  let sr := boilerplateStep max_boilerplate_ratio text sr
  let sr := linkStep max_link_density text html sr
  let sr := dupStep text sr
  let sr := densityStep text html sr
  let sr := titleStep title sr
  let score := max 0 (min oneS sr.1)
  let passed := decide (halfS ≤ score) && decide (min_chars ≤ text_len)
  let reasons := if passed = false ∧ sr.2 = [] then sr.2 ++ ["score_below_threshold"] else sr.2
  { score := scaledToQ (pyRound3S score), passed := passed, reasons := reasons }

/-- `should_retry_extraction` (quality_scorer.py:224-238); the literal
`0.3` compared against the stored float score is the double `F03Q`. -/
def should_retry_extraction (q : QualityScore) : Bool :=
  (decide (F03Q ≤ q.score) && decide (q.score < 1/2))
  || q.reasons.any (fun r => containsSub r "text_too_short")
  || q.reasons.any (fun r => containsSub r "high_boilerplate")

/-- The §4.5.2 deduction total, written from the claim: each listed
deduction, applied where its metric is defined (the ratio metrics of a
page require the respective source text/HTML to be present). -/
def claimDeduction (text html title : String) : ℚ :=
  (if text.length < 200 then 2/5 else if text.length < 400 then 1/10 else 0)
  + (if text ≠ "" then
      (if boilerplateDensity text > 3/10 then 3/10
       else if boilerplateDensity text > 3/20 then 1/10 else 0) else 0)
  + (if html ≠ "" then
      (if calculate_link_density text html > 1/2 then 3/10
       else if calculate_link_density text html > 7/20 then 1/10 else 0) else 0)
  + (if text ≠ "" then
      (if duplicateLineRatio text > 1/5 then 1/5 else 0) else 0)
  + (if html ≠ "" then
      (if calculate_text_density text html < 1/20 then 1/5 else 0) else 0)
  + (if title = "" ∨ (pyStrip title).length < 3 then 1/10 else 0)

/-- The claim's score: base 1.0 minus the deduction total, clamped
to [0,1]. -/
def claimScore (text html title : String) : ℚ :=
  max 0 (min 1 (1 - claimDeduction text html title))

/-- The deduction selected by step 1, as the pair (scaled binary64
amount, exact amount in tenths). -/
def sel1 (mc len : Nat) : ℤ × ℕ :=
  if len < mc then (F04S, 4) else if len < mc * 2 then (F01S, 1) else (0, 0)

/-- The deduction selected by step 2 (boilerplate). -/
def sel2 (r : ℚ) (text : String) : ℤ × ℕ :=
  if text ≠ "" then
    if boilerplateDensity text > r then (F03S, 3)
    else if boilerplateDensity text > r * (1/2) then (F01S, 1)
    else (0, 0)
  else (0, 0)

/-- The deduction selected by step 3 (link density). -/
def sel3 (r : ℚ) (text html : String) : ℤ × ℕ :=
  if html ≠ "" then
    if calculate_link_density text html > r then (F03S, 3)
    else if calculate_link_density text html > r * (7/10) then (F01S, 1)
    else (0, 0)
  else (0, 0)

/-- The deduction selected by step 4 (duplicate lines). -/
def sel4 (text : String) : ℤ × ℕ :=
  if text ≠ "" then
    (if duplicateLineRatio text > 1/5 then (F02S, 2) else (0, 0))
  else (0, 0)

/-- The deduction selected by step 5 (text/HTML ratio). -/
def sel5 (text html : String) : ℤ × ℕ :=
  if html ≠ "" then
    (if calculate_text_density text html < 1/20 then (F02S, 2) else (0, 0))
  else (0, 0)

/-- The deduction selected by step 6 (missing title). -/
def sel6 (title : String) : ℤ × ℕ :=
  if title = "" ∨ (pyStrip title).length < 3 then (F01S, 1) else (0, 0)

/-- Apply one selected deduction to the running float score: a selected
zero means the branch did not subtract. -/
def fstepS (d s : ℤ) : ℤ := if d = 0 then s else fsubS s d

/-- The float score accumulated over the six selected deductions. -/
def chainS (p1 p2 p3 p4 p5 p6 : ℤ × ℕ) : ℤ :=
  fstepS p6.1 (fstepS p5.1 (fstepS p4.1 (fstepS p3.1 (fstepS p2.1 (fstepS p1.1 oneS)))))

/-- The exact deduction total in tenths. -/
def sumT (p1 p2 p3 p4 p5 p6 : ℤ × ℕ) : ℕ :=
  p1.2 + p2.2 + p3.2 + p4.2 + p5.2 + p6.2

/-- `max(0.0, min(1.0, score))` on the scaled float. -/
def clampS (s : ℤ) : ℤ := max 0 (min oneS s)

/-- The exact clamped score, in tenths: `max 0 (min 1 (1 - t/10))`. -/
def clampT (t : ℕ) : ℕ := 10 - min 10 t

/-- The possible (float, tenths) deductions of step 1. -/
def dOpts1 : List (ℤ × ℕ) := [(F04S, 4), (F01S, 1), (0, 0)]

/-- The possible deductions of steps 2 and 3. -/
def dOpts2 : List (ℤ × ℕ) := [(F03S, 3), (F01S, 1), (0, 0)]

/-- The possible deductions of steps 4 and 5. -/
def dOpts4 : List (ℤ × ℕ) := [(F02S, 2), (0, 0)]

/-- The possible deductions of step 6. -/
def dOpts6 : List (ℤ × ℕ) := [(F01S, 1), (0, 0)]

/-- A page of twelve identical long lines containing one boilerplate
phrase: it takes exactly the boilerplate (-0.3) and duplicate-line
(-0.2) deductions. -/
def c6Text : String :=
  String.intercalate "\n" (List.replicate 12 "we use cookies on this website today")

/-- A clean 400-character page taking no deduction at all. -/
def c6WText : String := String.mk (List.replicate 400 'a')

/-! ## src/crawler/pipelines.py - QualityGatePipeline -/

namespace ExtractionMode

def TRAFILATURA : String := "trafilatura"

def READABILITY : String := "readability"

def FALLBACK : String := "fallback"

end ExtractionMode

/-- The slice of the open item map that `QualityGatePipeline` reads and
writes. -/
structure Item where
  url : String
  text : String
  html : String
  title : String
  extraction_mode : String
  quality_score : Option ℚ
  quality_passed : Option Bool
  quality_reasons : List String
deriving Repr, DecidableEq

/-- `QualityGatePipeline.process_item` (pipelines.py:93-132).
`readabilityExtract` stands for the external collaborator
`readability_ext.extract`; `none` models a `None` return and the
`if alt_text:` truthiness test also rejects an empty string. -/
def qualityGateProcessItem (readabilityExtract : String → Option String)
    (item : Item) : Item :=
  let quality := score_content item.text item.html item.title
    MIN_TEXT_LENGTH_SUCCESS (1/2) (3/10)
  let item1 := { item with
    quality_score := some quality.score
    quality_passed := some quality.passed
    quality_reasons := quality.reasons }
  if should_retry_extraction quality then
    if item1.extraction_mode ≠ ExtractionMode.FALLBACK ∧ item1.html ≠ "" then
      if item1.extraction_mode = ExtractionMode.TRAFILATURA then
        match readabilityExtract item1.html with
        | some alt_text =>
          if alt_text ≠ "" then
            let alt_quality := score_content alt_text item1.html item1.title
              200 (1/2) (3/10)
            if alt_quality.score > quality.score then
              { item1 with
                text := alt_text
                extraction_mode := ExtractionMode.READABILITY
                quality_score := some alt_quality.score
                quality_passed := some alt_quality.passed
                quality_reasons := alt_quality.reasons }
            else item1
          else item1
        | none => item1
      else item1
    else item1
  else item1

/-! ## urllib.parse - the collaborator functions `url_utils.py` calls

`urlparse`, `urlunparse`, `parse_qs` (with `keep_blank_values=True`) and
`urlencode` (with `doseq=True`) are embedded following CPython's
`urllib/parse.py`.  The percent codec is embedded at ASCII fidelity
(single-byte code points); `_checknetloc` (an NFKC check that only
affects non-ASCII netlocs) is a no-op at that fidelity, and the
`ipaddress`-backed validation of bracketed IPv6 hosts is approximated
syntactically (no claim evaluates a bracketed host). -/

def hexVal (c : Char) : Option Nat :=
  if 48 ≤ c.toNat ∧ c.toNat ≤ 57 then some (c.toNat - 48)
  else if 97 ≤ c.toNat ∧ c.toNat ≤ 102 then some (c.toNat - 87)
  else if 65 ≤ c.toNat ∧ c.toNat ≤ 70 then some (c.toNat - 55)
  else none

def hexDigitUpper (n : Nat) : Char :=
  if n < 10 then Char.ofNat (48 + n) else Char.ofNat (55 + n)

/-- `urllib.parse.unquote` at ASCII fidelity: `%hh` decodes to the byte
value, invalid escapes are kept literally. -/
def unquoteAux : List Char → List Char
  | [] => []
  | '%' :: a :: b :: rest =>
    match hexVal a, hexVal b with
    | some x, some y => Char.ofNat (16 * x + y) :: unquoteAux rest
    | _, _ => '%' :: unquoteAux (a :: b :: rest)
  | '%' :: rest => '%' :: unquoteAux rest
  | c :: rest => c :: unquoteAux rest

def unquote (s : String) : String :=
  String.mk (unquoteAux s.data)

/-- The characters `urllib.parse.quote` never escapes. -/
def alwaysSafeChar (c : Char) : Bool :=
  (c.isAlphanum && c.toNat < 128) || c == '_' || c == '.' || c == '-' || c == '~'

/-- `urllib.parse.quote_plus` with `safe=''` at ASCII fidelity: a space
becomes `+`, unreserved characters pass through, everything else becomes
an uppercase `%XX` escape. -/
def quote_plus (s : String) : String :=
  String.mk (s.data.foldr
    (fun c acc =>
      if c == ' ' then '+' :: acc
      else if alwaysSafeChar c then c :: acc
      else '%' :: hexDigitUpper (c.toNat / 16) :: hexDigitUpper (c.toNat % 16) :: acc)
    [])

/-- One field of a query string, split on the first `=`
(`name_value.split('=', 1)` with `keep_blank_values=True`), `+` turned
into spaces and both halves percent-decoded. -/
def parseQslField (nv : String) : String × String :=
  let d := nv.data
  let i? := d.findIdx? (fun c => c == '=')
  let raw : List Char × List Char :=
    match i? with
    | some i => (d.take i, d.drop (i + 1))
    | none => (d, [])
  let dec := fun (l : List Char) =>
    unquote (String.mk (l.map (fun c => if c == '+' then ' ' else c)))
  (dec raw.1, dec raw.2)

/-- `urllib.parse.parse_qsl(qs, keep_blank_values=True)`: split on `&`,
skip empty fields, keep blank values. -/
def parse_qsl_kbv (qs : String) : List (String × String) :=
  ((qs.splitOn "&").filter (fun f => f ≠ "")).map parseQslField

/-- Dict grouping done by `parse_qs`: first-occurrence key order, values
appended in field order. -/
def groupPairs (pairs : List (String × String)) : List (String × List String) :=
  pairs.foldl
    (fun acc kv =>
      if acc.any (fun e => e.1 == kv.1) then
        acc.map (fun e => if e.1 == kv.1 then (e.1, e.2 ++ [kv.2]) else e)
      else acc ++ [(kv.1, [kv.2])])
    []

def parse_qs_kbv (qs : String) : List (String × List String) :=
  groupPairs (parse_qsl_kbv qs)

/-- `urllib.parse.urlencode(query, doseq=True)` over a parsed-qs dict:
one `k=v` field per value, `quote_plus` on both sides, joined by `&`. -/
def urlencodeDoseq (query : List (String × List String)) : String :=
  String.intercalate "&"
    (query.foldr
      (fun kv acc => kv.2.map (fun v => quote_plus kv.1 ++ "=" ++ quote_plus v) ++ acc)
      [])

/-- `SplitResult` of `urllib.parse.urlsplit`. -/
structure SplitResult where
  scheme : String
  netloc : String
  path : String
  query : String
  fragment : String
deriving Repr, DecidableEq

/-- `ParseResult` of `urllib.parse.urlparse`. -/
structure ParseResult where
  scheme : String
  netloc : String
  path : String
  params : String
  query : String
  fragment : String
deriving Repr, DecidableEq

/-- WHATWG C0-control-or-space class stripped from the left of a URL. -/
def isC0ControlOrSpace (c : Char) : Bool :=
  c.toNat ≤ 32

/-- Tab, CR and LF are removed anywhere in the URL. -/
def isUnsafeUrlChar (c : Char) : Bool :=
  c == '\t' || c == '\r' || c == '\n'

def schemeChars (c : Char) : Bool :=
  c.isAlphanum || c == '+' || c == '-' || c == '.'

/-- Split at the first occurrence of `c` (`str.split(c, 1)`). -/
def splitOnceChar (c : Char) : List Char → List Char × Option (List Char)
  | [] => ([], none)
  | x :: xs =>
    if x == c then ([], some xs)
    else
      let r := splitOnceChar c xs
      (x :: r.1, r.2)

/-- Approximates CPython's `_check_bracketed_host`, which delegates to
the `ipaddress` module: accepts `v`-prefixed IPvFuture forms and
colon-containing strings of IPv6 characters.  No claim in this
development evaluates a URL with a bracketed host. -/
def isValidBracketedHost (h : String) : Bool :=
  match h.data with
  | 'v' :: rest => rest.length > 0
  | d => d.contains ':' && d.all (fun c => (hexVal c).isSome || c == ':' || c == '.')

/-- `urllib.parse.urlsplit(url)` (allow_fragments=True): strip leading
C0-control/space, drop tab/CR/LF, detect the scheme, split off the
netloc after `//`, then the fragment at the first `#`, then the query at
the first `?`.  An invalid bracketed netloc raises (`Except.error`). -/
def urlsplit (url0 : String) : Except String SplitResult :=
  let d0 := (url0.data.dropWhile isC0ControlOrSpace).filter (fun c => !isUnsafeUrlChar c)
  let schemeSplit : List Char × List Char :=
    match d0.findIdx? (fun c => c == ':') with
    | some i =>
      if 0 < i ∧ (d0.headD ' ').isAlpha ∧ (d0.headD ' ').toNat < 128
          ∧ (d0.take i).all schemeChars then
        ((d0.take i).map Char.toLower, d0.drop (i + 1))
      else ([], d0)
    | none => ([], d0)
  let scheme := schemeSplit.1
  let rest0 := schemeSplit.2
  let netlocSplit : List Char × List Char :=
    if rest0.take 2 = ['/', '/'] then
      let nl := (rest0.drop 2).takeWhile (fun c => !(c == '/' || c == '?' || c == '#'))
      (nl, (rest0.drop 2).drop nl.length)
    else ([], rest0)
  let netloc := netlocSplit.1
  let rest1 := netlocSplit.2
  if (netloc.contains '[' && !netloc.contains ']')
      || (netloc.contains ']' && !netloc.contains '[') then
    .error "Invalid IPv6 URL"
  else if netloc.contains '[' && netloc.contains ']' then
    let bracketed := ((netloc.dropWhile (fun c => c != '[')).drop 1).takeWhile (fun c => c != ']')
    if isValidBracketedHost (String.mk bracketed) then
      let fragSplit := splitOnceChar '#' rest1
      let rest2 := fragSplit.1
      let frag := (fragSplit.2.getD [])
      let querySplit := splitOnceChar '?' rest2
      .ok { scheme := String.mk scheme, netloc := String.mk netloc
            path := String.mk querySplit.1
            query := String.mk (querySplit.2.getD [])
            fragment := String.mk frag }
    else
      .error "invalid bracketed host"
  else
    let fragSplit := splitOnceChar '#' rest1
    let rest2 := fragSplit.1
    let frag := (fragSplit.2.getD [])
    let querySplit := splitOnceChar '?' rest2
    .ok { scheme := String.mk scheme, netloc := String.mk netloc
          path := String.mk querySplit.1
          query := String.mk (querySplit.2.getD [])
          fragment := String.mk frag }

/-- The schemes for which `urlparse` splits `;params` off the path. -/
def USES_PARAMS : List String :=
  ["", "ftp", "hdl", "prospero", "http", "imap", "https", "shttp", "rtsp",
   "rtspu", "sip", "sips", "mms", "sftp", "tel"]

/-- `urllib.parse._splitparams`: split path and params at the first `;`
of the last path segment. -/
def splitparams (url : String) : String × String :=
  let d := url.data
  if d.contains '/' then
    let lastSlashIdx := d.length - 1 - ((d.reverse.findIdx? (fun c => c == '/')).getD 0)
    let tailPart := d.drop lastSlashIdx
    match tailPart.findIdx? (fun c => c == ';') with
    | none => (url, "")
    | some k =>
      let i := lastSlashIdx + k
      (String.mk (d.take i), String.mk (d.drop (i + 1)))
  else
    match d.findIdx? (fun c => c == ';') with
    | none => (url, "")
    | some i => (String.mk (d.take i), String.mk (d.drop (i + 1)))

/-- `urllib.parse.urlparse(url)`. -/
def urlparse (url : String) : Except String ParseResult :=
  match urlsplit url with
  | .error e => .error e
  | .ok sp =>
    if sp.scheme ∈ USES_PARAMS ∧ sp.path.data.contains ';' then
      let pp := splitparams sp.path
      .ok { scheme := sp.scheme, netloc := sp.netloc, path := pp.1
            params := pp.2, query := sp.query, fragment := sp.fragment }
    else
      .ok { scheme := sp.scheme, netloc := sp.netloc, path := sp.path
            params := "", query := sp.query, fragment := sp.fragment }

/-- `urllib.parse.urlunsplit`. -/
def urlunsplit (scheme netloc path query fragment : String) : String :=
  let url := path
  let url :=
    if netloc ≠ "" ∨ (url ≠ "" ∧ url.take 2 = "//") then
      let url := if url ≠ "" ∧ url.take 1 ≠ "/" then "/" ++ url else url
      "//" ++ netloc ++ url
    else url
  let url := if scheme ≠ "" then scheme ++ ":" ++ url else url
  let url := if query ≠ "" then url ++ "?" ++ query else url
  let url := if fragment ≠ "" then url ++ "#" ++ fragment else url
  url

/-- `urllib.parse.urlunparse`. -/
def urlunparse (scheme netloc path params query fragment : String) : String :=
  let path := if params ≠ "" then path ++ ";" ++ params else path
  urlunsplit scheme netloc path query fragment

/-! ## src/crawler/url_utils.py -/

/-- `TRACKING_PARAMS` (url_utils.py:9-25), verbatim.  Note that
membership is tested against `k.lower()`, so the one mixed-case entry
can never match. -/
def TRACKING_PARAMS : List String :=
  [ "utm_source", "utm_medium", "utm_campaign", "utm_term", "utm_content"
  , "utm_id", "utm_source_platform", "utm_creative_format"
  , "gclid", "gclsrc", "dclid"
  , "fbclid", "fb_action_ids", "fb_action_types", "fb_source", "fb_ref"
  , "msclkid", "twclid", "li_fat_id", "igshid", "mc_cid", "mc_eid"
  , "ref", "ref_src", "ref_url", "referrer", "source"
  , "_ga", "_gl", "_hsenc", "_hsmi", "hsCtaTracking"
  , "sessionid", "clickid", "affiliate_id", "partner_id"
  , "return_to", "locale", "locale_id" ]

/-- `strip_tracking_params` (url_utils.py:78-107): parse, drop query
keys whose lowercase form is a tracking key, re-encode, rebuild without
the fragment; a URL whose parse raises (or that has no query) is
returned unchanged. -/
def strip_tracking_params (url : String) : String :=
  match urlparse url with
  | .error _ => url
  | .ok parsed =>
    if parsed.query = "" then url
    else
      let params := parse_qs_kbv parsed.query
      let filtered := params.filter (fun kv => !(TRACKING_PARAMS.contains (pyLower kv.1)))
      let new_query := if filtered.isEmpty then "" else urlencodeDoseq filtered
      urlunparse parsed.scheme parsed.netloc parsed.path parsed.params new_query ""

/-- `re.sub(r'/+', '/', path)`. -/
def collapseSlashes (s : String) : String :=
  String.mk (s.data.foldr
    (fun c acc => if c == '/' ∧ acc.headD ' ' == '/' then acc else c :: acc) [])

def strEndsWith (s suf : String) : Bool :=
  suf.data.isSuffixOf s.data

/-- `path.rsplit('/', 1)[0]`. -/
def rsplitSlashHead (s : String) : String :=
  if s.data.contains '/' then
    String.mk ((s.data.reverse.dropWhile (fun c => c != '/')).drop 1).reverse
  else s

/-- `path.rstrip('/')`. -/
def rstripSlashes (s : String) : String :=
  String.mk (s.data.reverse.dropWhile (fun c => c == '/')).reverse

/-- `netloc.rsplit(':', 1)`. -/
def rsplitColon (s : String) : String × String :=
  (String.mk ((s.data.reverse.dropWhile (fun c => c != ':')).drop 1).reverse,
   String.mk (s.data.reverse.takeWhile (fun c => c != ':')).reverse)

/-- `canonicalize_url` (url_utils.py:110-153): strip tracking params;
lowercase scheme and netloc; drop a default port; collapse `/+` runs;
map a trailing `/index.html` / `/index.htm` to the directory form; strip
the trailing slash of a non-root path; rebuild keeping the non-tracking
query and dropping params and fragment. -/
def canonicalize_url (url : String) : String :=
  let url := strip_tracking_params url
  match urlparse url with
  | .error _ => url
  | .ok parsed =>
    let scheme := pyLower parsed.scheme
    let netloc := pyLower parsed.netloc
    let netloc :=
      if netloc.data.contains ':' then
        let hp := rsplitColon netloc
        if (scheme = "http" ∧ hp.2 = "80") ∨ (scheme = "https" ∧ hp.2 = "443") then
          hp.1
        else netloc
      else netloc
    let path := if parsed.path = "" then "/" else parsed.path
    let path := collapseSlashes path
    let path :=
      if strEndsWith path "/index.html" ∨ strEndsWith path "/index.htm" then
        rsplitSlashHead path ++ "/"
      else path
    let path := if path ≠ "/" ∧ strEndsWith path "/" then rstripSlashes path else path
    let path := if path = "" then "/" else path
    let query := parsed.query
    urlunparse scheme netloc path "" query ""

/-! ## src/worker/finalizer.py - `_deduplicate_pages` -/

/-- The slice of a raw JSONL record that `_deduplicate_pages` reads.
`canonical_url := none` models an absent key or a JSON `null`
(`record.get` returns `None` for both); `some ""` is an empty string,
which is also falsy for the `or` fallback.  `body` stands for the full
line text that the dict stores and later writes out. -/
structure PageRec where
  canonical_url : Option String
  url : Option String
  body : String
deriving Repr, DecidableEq

/-- One stripped line of `pages.raw.jsonl` as the read loop
(finalizer.py:112-124) sees it. -/
inductive RawLine where
  | blank
  | badJson (s : String)
  | record (r : PageRec)
deriving Repr, DecidableEq

/-- The dedup key of finalizer.py:120:
`record.get('canonical_url') or canonicalize_url(record.get('url', ''))` -
the fallback fires for an absent, null, or empty `canonical_url`. -/
def dedupKey (r : PageRec) : String :=
  match r.canonical_url with
  | some s => if s = "" then canonicalize_url (r.url.getD "") else s
  | none => canonicalize_url (r.url.getD "")

/-- The dedup key exactly as the claim words it: the `canonical_url`
field, falling back to `canonicalize_url(url)` only when `canonical_url`
is absent. -/
def claimKey (r : PageRec) : String :=
  match r.canonical_url with
  | some s => s
  | none => canonicalize_url (r.url.getD "")

/-- `pages_by_canonical[canonical] = line`: Python dict assignment keeps
the insertion position of an existing key and replaces its value, and
appends a new key at the end. -/
def upsertPage (m : List (String × PageRec)) (k : String) (r : PageRec) :
    List (String × PageRec) :=
  match m with
  | [] => [(k, r)]
  | e :: rest => if e.1 = k then (k, r) :: rest else e :: upsertPage rest k r

/-- The read loop of `_deduplicate_pages`: blank lines and JSON-decode
failures are skipped; each record is keyed and upserted, and
`total_raw` counts the keyed records. -/
def dedupFold (acc : List (String × PageRec) × Nat) : RawLine → List (String × PageRec) × Nat
  | .blank => acc
  | .badJson _ => acc
  | .record r => (upsertPage acc.1 (dedupKey r) r, acc.2 + 1)

/-- `_deduplicate_pages` (finalizer.py:102-136): returns the dict (in
iteration order, which is what is written to `pages.jsonl`) and the
stats dict. -/
def _deduplicate_pages (lines : List RawLine) : List (String × PageRec) × DedupStats :=
  let fold := lines.foldl dedupFold ([], 0)
  (fold.1,
   { total_raw := fold.2
     total_deduped := fold.1.length
     duplicates_removed := fold.2 - fold.1.length })

/-- The parseable records of the raw file, in file order. -/
def recordsOf (lines : List RawLine) : List PageRec :=
  lines.filterMap fun l =>
    match l with
    | .record r => some r
    | _ => none

/-- The last parseable record of the raw file whose dedup key is `k`. -/
def lastRecordWith (k : String) : List RawLine → Option PageRec
  | [] => none
  | l :: ls =>
    match lastRecordWith k ls with
    | some r => some r
    | none =>
      match l with
      | .record r => if dedupKey r = k then some r else none
      | _ => none

/-- Association-list lookup mirroring what a reader of `pages.jsonl`
finds for a key. -/
def lookupPage (m : List (String × PageRec)) (k : String) : Option PageRec :=
  match m with
  | [] => none
  | e :: rest => if e.1 = k then some e.2 else lookupPage rest k

/-- All stored counts of an IP table are non-negative. -/
def IpNonneg (t : IpTable) : Prop := ∀ e ∈ t, (0:Int) ≤ e.2

/-- A job that has finished successfully: DONE, with its timestamps set. -/
def c1DoneJob : Job :=
  { id := "job_c1", state := JobState.DONE, startedAt := some "t0"
    finishedAt := some "t0", restartCount := 0, fallbackRetryCount := 0
    pagesFetched := 3, pagesExported := 3, lastError := none
    siteStatus := none, crawlerStrategy := none
    requesterIpHash := "iphash_c1", updatedAt := "t0" }

/-- A job in the RUNNING state about to be finalized. -/
def c2RunningJob : Job :=
  { id := "job_c2", state := JobState.RUNNING, startedAt := some "t0"
    finishedAt := none, restartCount := 0, fallbackRetryCount := 0
    pagesFetched := 2, pagesExported := 0, lastError := none
    siteStatus := none, crawlerStrategy := some "scrapy"
    requesterIpHash := "iphash_c2", updatedAt := "t0" }

def c5Url : String := "http://example.com/a/index.html/index.html"

def c3r1 : PageRec := { canonical_url := some "", url := some "http://h/x", body := "L1" }

def c3r2 : PageRec := { canonical_url := some "", url := some "http://h/y", body := "L2" }

/-! ## Theorems -/

/-! ### C9 - per-IP concurrency counter is never negative -/

theorem ipNonneg_increment {t : IpTable} {ip : String} (h : IpNonneg t) :
    IpNonneg (increment_ip_concurrent t ip) := by
  unfold increment_ip_concurrent
  split
  · intro e he
    rcases List.mem_map.mp he with ⟨a, ha, rfl⟩
    have ha2 := h a ha
    by_cases hk : (a.1 == ip) = true
    · rw [if_pos hk]
      dsimp only
      omega
    · rw [if_neg hk]
      exact ha2
  · intro e he
    rcases List.mem_append.mp he with h1 | h1
    · exact h e h1
    · simp only [List.mem_singleton] at h1
      rw [h1]
      norm_num

theorem ipNonneg_decrement {t : IpTable} {ip : String} (h : IpNonneg t) :
    IpNonneg (decrement_ip_concurrent t ip) := by
  unfold decrement_ip_concurrent
  intro e he
  rcases List.mem_map.mp he with ⟨a, ha, rfl⟩
  have := h a ha
  split <;> simp <;> omega

theorem ipNonneg_applyIpOps (ops : List IpOp) :
    ∀ t : IpTable, IpNonneg t → IpNonneg (applyIpOps t ops) := by
  induction ops with
  | nil => intro t h; simpa [applyIpOps] using h
  | cons op rest ih =>
    intro t h
    have hstep : IpNonneg (applyIpOp t op) := by
      cases op with
      | incr ip => exact ipNonneg_increment h
      | decr ip => exact ipNonneg_decrement h
    simpa [applyIpOps] using ih (applyIpOp t op) hstep

theorem get_ip_nonneg {t : IpTable} (h : IpNonneg t) (ip : String) :
    0 ≤ get_ip_concurrent_count t ip := by
  unfold get_ip_concurrent_count
  cases hf : t.find? (fun e => e.1 == ip) with
  | none => simp
  | some e => exact h e (List.mem_of_find?_eq_some hf)

theorem get_ip_cons (e : String × Int) (rest : IpTable) (ip : String) :
    get_ip_concurrent_count (e :: rest) ip =
      if e.1 == ip then e.2 else get_ip_concurrent_count rest ip := by
  unfold get_ip_concurrent_count
  cases he : (e.1 == ip)
  · rw [List.find?_cons_of_neg _ (by simp [he]), if_neg (by simp [he])]
  · rw [List.find?_cons_of_pos _ (by simp [he]), if_pos (by simp [he])]

theorem decrement_clamps (t : IpTable) (ip : String) :
    get_ip_concurrent_count (decrement_ip_concurrent t ip) ip =
      max 0 (get_ip_concurrent_count t ip - 1) := by
  induction t with
  | nil => simp [decrement_ip_concurrent, get_ip_concurrent_count]
  | cons e rest ih =>
    have hdec : decrement_ip_concurrent (e :: rest) ip =
        (if e.1 == ip then (e.1, max 0 (e.2 - 1)) else e) ::
          decrement_ip_concurrent rest ip := by
      simp [decrement_ip_concurrent]
    rw [hdec]
    cases he : (e.1 == ip)
    · rw [if_neg (by simp [he]), get_ip_cons, get_ip_cons,
        if_neg (by simp [he]), if_neg (by simp [he])]
      exact ih
    · rw [if_pos (by simp [he]), get_ip_cons, get_ip_cons]
      simp [he]

/-- C9: starting from an empty IP-usage table, every sequence of
`increment_ip_concurrent` / `decrement_ip_concurrent` operations keeps
every ip_hash's observed concurrent count non-negative; a decrement
clamps the count at 0; and a decrement for an ip_hash that has no row
leaves its observed count at 0. -/
theorem C9_ip_counter_never_negative :
    (∀ (ops : List IpOp) (ip : String),
      0 ≤ get_ip_concurrent_count (applyIpOps [] ops) ip)
  ∧ (∀ (t : IpTable) (ip : String),
      get_ip_concurrent_count (decrement_ip_concurrent t ip) ip =
        max 0 (get_ip_concurrent_count t ip - 1))
  ∧ (∀ (t : IpTable) (ip : String),
      t.find? (fun e => e.1 == ip) = none →
        get_ip_concurrent_count (decrement_ip_concurrent t ip) ip = 0) := by
  refine ⟨?_, ?_, ?_⟩
  · intro ops ip
    have hinv : IpNonneg (applyIpOps [] ops) :=
      ipNonneg_applyIpOps ops [] (by intro e he; simp at he)
    exact get_ip_nonneg hinv ip
  · exact decrement_clamps
  · intro t ip hnone
    have h0 : get_ip_concurrent_count t ip = 0 := by
      unfold get_ip_concurrent_count
      rw [hnone]
    rw [decrement_clamps, h0]
    decide

/-- C9 witness: the third conjunct applied to the empty table, where the
lookup is concretely `none` and a decrement observes 0. -/
theorem C9_witness :
    get_ip_concurrent_count (decrement_ip_concurrent [] "ip_a") "ip_a" = 0 :=
  C9_ip_counter_never_negative.2.2 [] "ip_a" (by rfl)

/-! ### C4 - the blocking classifier follows the §4.6 table -/

/-- C4: for evidence with at least one recorded response, the site
status computed by `analyze_blocking_signals` equals the §4.6
classification table applied in table order, first matching row wins. -/
theorem C4_classifier_matches_table (ev : TrackerEvidence)
    (h : 0 < ev.total_responses) :
    (analyze_blocking_signals ev).1 = blockingTableStatus ev := by
  unfold analyze_blocking_signals blockingTableStatus
  unfold BLOCKING_429_THRESHOLD BLOCKING_403_THRESHOLD DUPLICATE_HASH_THRESHOLD
  rw [if_neg (by omega)]
  simp only
  rw [mul_comm ((1:ℚ)/2) ((ev.total_responses : ℚ))]
  split_ifs <;> first | rfl | omega

/-- C4 witness: concrete evidence (ten responses, three of them 429)
classified THROTTLED by both the code and the table. -/
theorem C4_witness :
    (analyze_blocking_signals
      { total_responses := 10, status_codes := [(429, 3)], captcha_hits := 0
        waf_hits := 0, login_redirects := 0, duplicate_ratio := 0
        sample_urls := [], signature_hits := [] }).1 =
    blockingTableStatus
      { total_responses := 10, status_codes := [(429, 3)], captcha_hits := 0
        waf_hits := 0, login_redirects := 0, duplicate_ratio := 0
        sample_urls := [], signature_hits := [] } :=
  C4_classifier_matches_table _ (by norm_num)

/-! ### C10 - zero recorded responses give status `unknown` -/

/-- C10: when the tracker evidence records zero total responses (as it
does when no blocking-evidence file was produced and every field
defaults), `analyze_blocking_signals` returns the site status `unknown`
with an empty evidence summary and writes no blocking event; in
particular this is not the NORMAL of the table's otherwise row. -/
theorem C10_zero_responses_unknown (ev : TrackerEvidence)
    (h : ev.total_responses = 0) :
    analyze_blocking_signals ev = (SiteStatus.UNKNOWN, none, [])
    ∧ (analyze_blocking_signals ev).1 ≠ SiteStatus.NORMAL := by
  have hmain : analyze_blocking_signals ev = (SiteStatus.UNKNOWN, none, []) := by
    unfold analyze_blocking_signals
    rw [if_pos h]
  refine ⟨hmain, ?_⟩
  rw [hmain]
  decide

/-- C10 witness: the all-defaults evidence of a missing
`blocking_evidence.json`. -/
theorem C10_witness :
    analyze_blocking_signals
      { total_responses := 0, status_codes := [], captcha_hits := 0
        waf_hits := 0, login_redirects := 0, duplicate_ratio := 0
        sample_urls := [], signature_hits := [] } =
      (SiteStatus.UNKNOWN, none, []) :=
  (C10_zero_responses_unknown _ rfl).1

/-! ### C1 - transitions out of TERMINAL are not rejected -/

/-- C1 counterexample: `update_job_state` on a DONE (terminal) job does
not reject the transition - it changes the persisted state to RUNNING,
refuting the claim that the state and every other field are left
unchanged. -/
theorem C1_counterexample :
    c1DoneJob.state ∈ JobState.TERMINAL
    ∧ (update_job_state (some c1DoneJob) JobState.RUNNING emptyPatch "t1").map
        Job.state = some JobState.RUNNING
    ∧ JobState.RUNNING ≠ c1DoneJob.state := by
  decide

/-- C1 (amended): `update_job_state` performs no state-based rejection:
for a job whose current state is terminal, the call still applies the
transition and the persisted state becomes the requested `new_state`
(with `updated_at` rewritten and `finished_at` only preserved because it
is already set). -/
theorem C1_terminal_not_rejected (j : Job) (newState : String) (p : JobPatch)
    (now : String) (h : j.state ∈ JobState.TERMINAL) :
    (update_job_state (some j) newState p now).map Job.state = some newState
    ∧ (update_job_state (some j) newState p now).map Job.updatedAt = some now := by
  refine ⟨?_, ?_⟩ <;>
    simp [update_job_state, update_job_state_core, update_job] <;>
    split_ifs <;> rfl

/-- C1 witness: the amended theorem applied to the concrete DONE job. -/
theorem C1_witness :
    (update_job_state (some c1DoneJob) JobState.RUNNING emptyPatch "t1").map
      Job.state = some JobState.RUNNING :=
  (C1_terminal_not_rejected c1DoneJob JobState.RUNNING emptyPatch "t1" (by decide)).1

/-! ### C2 - terminal paths that skip the IP-counter decrement -/

/-- C2: evaluation of the terminal paths of `finalize_job` and of the
runner failure epilogue.  The no-raw-file path reaches the terminal
state DONE with zero IP-counter decrements, and the dedup-failure path
reaches FAILED with zero decrements, while the claim requires exactly
one decrement on every terminal path; the ordinary success path and the
runner failure path do decrement exactly once. -/
theorem C2_finalizer_skips_decrement :
    ((finalize_job (some c2RunningJob) false
        (.ok { total_raw := 0, total_deduped := 0, duplicates_removed := 0 })
        "t1").ipDecrements = 0
      ∧ (finalize_job (some c2RunningJob) false
          (.ok { total_raw := 0, total_deduped := 0, duplicates_removed := 0 })
          "t1").job.map Job.state = some JobState.DONE)
    ∧ ((finalize_job (some c2RunningJob) true (.error "io error") "t1").ipDecrements = 0
      ∧ (finalize_job (some c2RunningJob) true (.error "io error") "t1").job.map
          Job.state = some JobState.FAILED)
    ∧ (finalize_job (some c2RunningJob) true
        (.ok { total_raw := 2, total_deduped := 1, duplicates_removed := 1 })
        "t1").ipDecrements = 1
    ∧ (run_job_failure_epilogue c2RunningJob "t1").ipDecrements = 1 := by
  decide

/-! ### C5 - canonicalization is not idempotent -/

/-- C5: a concrete URL on which `canonicalize_url` is not idempotent.
The first application rewrites the trailing `/index.html` to the
directory form, exposing another `/index.html` suffix, which the second
application rewrites again. -/
theorem C5_canonicalize_not_idempotent :
    canonicalize_url c5Url = "http://example.com/a/index.html"
    ∧ canonicalize_url (canonicalize_url c5Url) = "http://example.com/a"
    ∧ canonicalize_url (canonicalize_url c5Url) ≠ canonicalize_url c5Url := by
  decide

/-! ### C7 - restart policy and the restart bound -/

theorem update_job_state_core_state (j : Job) (ns : String) (p : JobPatch)
    (now : String) : (update_job_state_core j ns p now).state = ns := by
  unfold update_job_state_core update_job
  split_ifs <;> rfl

theorem update_job_state_core_restart (j : Job) (ns : String) (p : JobPatch)
    (now : String) :
    (update_job_state_core j ns p now).restartCount =
      p.restartCount.getD j.restartCount := by
  unfold update_job_state_core update_job
  split_ifs <;> rfl

theorem handle_orphaned_job_spec (j : Job) (now : String) :
    (handle_orphaned_job j now).job.state =
      (if j.restartCount < 2 then JobState.QUEUED else JobState.FAILED)
    ∧ (handle_orphaned_job j now).job.restartCount =
      (if j.restartCount < 2 then j.restartCount + 1 else j.restartCount) := by
  unfold handle_orphaned_job MAX_RESTARTS
  split_ifs with h
  · exact ⟨update_job_state_core_state .., by
      rw [update_job_state_core_restart]
      simp [increment_restart_count, update_job, emptyPatch]⟩
  · exact ⟨update_job_state_core_state .., by
      rw [update_job_state_core_restart]
      simp [emptyPatch]⟩

theorem handle_stalled_job_spec (j : Job) (now : String) :
    (handle_stalled_job j now).job.state =
      (if j.restartCount < 2 then JobState.QUEUED else JobState.FAILED)
    ∧ (handle_stalled_job j now).job.restartCount =
      (if j.restartCount < 2 then j.restartCount + 1 else j.restartCount) := by
  unfold handle_stalled_job MAX_RESTARTS
  split_ifs with h
  · exact ⟨update_job_state_core_state .., by
      rw [update_job_state_core_restart]
      simp [increment_restart_count, update_job, emptyPatch]⟩
  · exact ⟨update_job_state_core_state .., by
      rw [update_job_state_core_restart]
      simp [emptyPatch]⟩

theorem applyWorkerOp_restart_le (j : Job) (op : WorkerOp)
    (h : j.restartCount ≤ 2) : (applyWorkerOp j op).restartCount ≤ 2 := by
  cases op with
  | lease now =>
    simpa [applyWorkerOp, update_job_state_core_restart, emptyPatch] using h
  | setStrategy s now => simpa [applyWorkerOp, update_job, emptyPatch] using h
  | heartbeat pages now => simpa [applyWorkerOp, update_job, emptyPatch] using h
  | recordFallback now => simpa [applyWorkerOp, update_job, emptyPatch] using h
  | setBlockingStatus s now => simpa [applyWorkerOp, update_job, emptyPatch] using h
  | detectOrphaned now =>
    have hs := (handle_orphaned_job_spec j now).2
    simp only [applyWorkerOp]
    rw [hs]
    split_ifs with hlt <;> omega
  | detectStalled now =>
    have hs := (handle_stalled_job_spec j now).2
    simp only [applyWorkerOp]
    rw [hs]
    split_ifs with hlt <;> omega
  | detectHardStalled now =>
    simpa [applyWorkerOp, handle_hard_stalled_job, update_job_state_core_restart,
      emptyPatch] using h
  | finalize rawExists dedup now =>
    simp only [applyWorkerOp, finalize_job]
    split_ifs with hr
    · simpa [update_job_state_core_restart, emptyPatch] using h
    · cases dedup with
      | error e => simpa [update_job_state_core_restart, emptyPatch] using h
      | ok stats => simpa [update_job_state_core_restart, emptyPatch] using h
  | runnerFail now =>
    simp only [applyWorkerOp, run_job_failure_epilogue]
    split_ifs with hr
    · simpa [update_job_state_core_restart, emptyPatch] using h
    · exact h
  | expireSweep now =>
    simpa [applyWorkerOp, update_job_state_core_restart, emptyPatch] using h

theorem applyWorkerOps_restart_le (ops : List WorkerOp) :
    ∀ j : Job, j.restartCount ≤ 2 → (applyWorkerOps j ops).restartCount ≤ 2 := by
  induction ops with
  | nil => intro j h; simpa [applyWorkerOps] using h
  | cons op rest ih =>
    intro j h
    simpa [applyWorkerOps, List.foldl_cons] using
      ih (applyWorkerOp j op) (applyWorkerOp_restart_le j op h)

/-- C7: for every orphaned or stalled job the detector handles, a job
with `restart_count < 2` is incremented and returned to QUEUED, and any
other is set FAILED with its restart count unchanged; consequently every
job reachable from creation through the worker operations satisfies
`restart_count ≤ 2` at all times. -/
theorem C7_restart_bound :
    (∀ (j : Job) (now : String), j.restartCount < 2 →
      (handle_orphaned_job j now).job.state = JobState.QUEUED
      ∧ (handle_orphaned_job j now).job.restartCount = j.restartCount + 1
      ∧ (handle_stalled_job j now).job.state = JobState.QUEUED
      ∧ (handle_stalled_job j now).job.restartCount = j.restartCount + 1)
  ∧ (∀ (j : Job) (now : String), ¬ j.restartCount < 2 →
      (handle_orphaned_job j now).job.state = JobState.FAILED
      ∧ (handle_orphaned_job j now).job.restartCount = j.restartCount
      ∧ (handle_stalled_job j now).job.state = JobState.FAILED
      ∧ (handle_stalled_job j now).job.restartCount = j.restartCount)
  ∧ (∀ (id ip now : String) (ops : List WorkerOp),
      (applyWorkerOps (create_job id ip now) ops).restartCount ≤ 2) := by
  refine ⟨?_, ?_, ?_⟩
  · intro j now h
    obtain ⟨ho1, ho2⟩ := handle_orphaned_job_spec j now
    obtain ⟨hs1, hs2⟩ := handle_stalled_job_spec j now
    rw [if_pos h] at ho1 ho2 hs1 hs2
    exact ⟨ho1, ho2, hs1, hs2⟩
  · intro j now h
    obtain ⟨ho1, ho2⟩ := handle_orphaned_job_spec j now
    obtain ⟨hs1, hs2⟩ := handle_stalled_job_spec j now
    rw [if_neg h] at ho1 ho2 hs1 hs2
    exact ⟨ho1, ho2, hs1, hs2⟩
  · intro id ip now ops
    exact applyWorkerOps_restart_le ops (create_job id ip now) (by simp [create_job])

/-- C7 witness: a freshly created job (restart count 0) is re-queued by
the orphan handler, and a trace of three successive detector hits keeps
the restart count within the bound. -/
theorem C7_witness :
    (handle_orphaned_job (create_job "job_w" "ip_w" "t0") "t1").job.state =
      JobState.QUEUED
    ∧ (applyWorkerOps (create_job "job_w" "ip_w" "t0")
        [WorkerOp.lease "t1", WorkerOp.detectOrphaned "t2",
         WorkerOp.detectOrphaned "t3", WorkerOp.detectOrphaned "t4"]).restartCount ≤ 2 :=
  ⟨(C7_restart_bound.1 (create_job "job_w" "ip_w" "t0") "t1" (by decide)).1,
   C7_restart_bound.2.2 "job_w" "ip_w" "t0" _⟩

/-! ### C8 - re-extraction never lowers the stored quality score -/

/-- C8: after the quality-gate stage the stored `quality_score` is at
least the score of the initial extraction, for every item and every
possible alternate-extractor output: the alternate result replaces the
stored one only when its score is strictly greater. -/
theorem C8_reextraction_monotone (rext : String → Option String) (item : Item) :
    ∃ s, (qualityGateProcessItem rext item).quality_score = some s
      ∧ (score_content item.text item.html item.title MIN_TEXT_LENGTH_SUCCESS
          (1/2) (3/10)).score ≤ s := by
  unfold qualityGateProcessItem
  dsimp only
  split
  · split
    · split
      · split
        · split
          · split
            · rename_i halt
              exact ⟨_, rfl, le_of_lt halt⟩
            · exact ⟨_, rfl, le_refl _⟩
          · exact ⟨_, rfl, le_refl _⟩
        · exact ⟨_, rfl, le_refl _⟩
      · exact ⟨_, rfl, le_refl _⟩
    · exact ⟨_, rfl, le_refl _⟩
  · exact ⟨_, rfl, le_refl _⟩

/-! ### C3 - the dedup law of the finalizer -/

theorem mem_keys_upsertPage (m : List (String × PageRec)) (k k' : String)
    (r : PageRec) :
    k' ∈ (upsertPage m k r).map Prod.fst ↔ k' = k ∨ k' ∈ m.map Prod.fst := by
  induction m with
  | nil => simp [upsertPage]
  | cons e rest ih =>
    by_cases he : e.1 = k
    · simp only [upsertPage, if_pos he, List.map_cons, List.mem_cons]
      rw [he]
      tauto
    · simp only [upsertPage, if_neg he, List.map_cons, List.mem_cons, ih]
      tauto

theorem nodup_keys_upsertPage {m : List (String × PageRec)} {k : String}
    {r : PageRec} (h : (m.map Prod.fst).Nodup) :
    ((upsertPage m k r).map Prod.fst).Nodup := by
  induction m with
  | nil => simp [upsertPage]
  | cons e rest ih =>
    rw [List.map_cons, List.nodup_cons] at h
    by_cases he : e.1 = k
    · simp only [upsertPage, if_pos he, List.map_cons, List.nodup_cons]
      exact ⟨he ▸ h.1, h.2⟩
    · simp only [upsertPage, if_neg he, List.map_cons, List.nodup_cons]
      refine ⟨?_, ih h.2⟩
      rw [mem_keys_upsertPage]
      push_neg
      exact ⟨he, h.1⟩

theorem lookupPage_upsert_self (m : List (String × PageRec)) (k : String)
    (r : PageRec) : lookupPage (upsertPage m k r) k = some r := by
  induction m with
  | nil => simp [upsertPage, lookupPage]
  | cons e rest ih =>
    by_cases he : e.1 = k
    · simp [upsertPage, he, lookupPage]
    · simp only [upsertPage, if_neg he, lookupPage, ih]

theorem lookupPage_upsert_ne (m : List (String × PageRec)) (k k' : String)
    (r : PageRec) (h : k' ≠ k) :
    lookupPage (upsertPage m k r) k' = lookupPage m k' := by
  induction m with
  | nil => simp [upsertPage, lookupPage, Ne.symm h]
  | cons e rest ih =>
    by_cases he : e.1 = k
    · simp only [upsertPage, if_pos he, lookupPage]
      rw [if_neg (Ne.symm h), if_neg (by rw [he]; exact Ne.symm h)]
    · simp only [upsertPage, if_neg he, lookupPage, ih]

theorem dedup_foldl_nodup (lines : List RawLine) :
    ∀ (m : List (String × PageRec)) (n : Nat), (m.map Prod.fst).Nodup →
      (((lines.foldl dedupFold (m, n)).1).map Prod.fst).Nodup := by
  induction lines with
  | nil => intro m n h; simpa using h
  | cons l ls ih =>
    intro m n h
    cases l with
    | blank => simpa [dedupFold] using ih m n h
    | badJson s => simpa [dedupFold] using ih m n h
    | record r =>
      simpa [dedupFold] using ih _ _ (nodup_keys_upsertPage h)

theorem dedup_foldl_lookup (lines : List RawLine) :
    ∀ (m : List (String × PageRec)) (n : Nat) (k : String),
      lookupPage ((lines.foldl dedupFold (m, n)).1) k =
        (match lastRecordWith k lines with
          | some r => some r
          | none => lookupPage m k) := by
  induction lines with
  | nil => intro m n k; simp [lastRecordWith]
  | cons l ls ih =>
    intro m n k
    cases l with
    | blank =>
      rw [List.foldl_cons]
      show lookupPage ((ls.foldl dedupFold (m, n)).1) k = _
      rw [ih m n k]
      cases hl : lastRecordWith k ls <;> simp [lastRecordWith, hl]
    | badJson s =>
      rw [List.foldl_cons]
      show lookupPage ((ls.foldl dedupFold (m, n)).1) k = _
      rw [ih m n k]
      cases hl : lastRecordWith k ls <;> simp [lastRecordWith, hl]
    | record r =>
      rw [List.foldl_cons]
      show lookupPage ((ls.foldl dedupFold
        (upsertPage m (dedupKey r) r, n + 1)).1) k = _
      rw [ih _ _ k]
      cases hlast : lastRecordWith k ls with
      | some r2 => simp [lastRecordWith, hlast]
      | none =>
        by_cases hk : dedupKey r = k
        · have h1 : lastRecordWith k (RawLine.record r :: ls) = some r := by
            simp only [lastRecordWith, hlast, if_pos hk]
          rw [h1, ← hk]
          exact lookupPage_upsert_self m (dedupKey r) r
        · simp only [lastRecordWith, hlast]
          rw [if_neg hk, lookupPage_upsert_ne _ _ _ _ (fun he => hk he.symm)]

theorem keys_upsertPage_toFinset (m : List (String × PageRec)) (k : String)
    (r : PageRec) :
    ((upsertPage m k r).map Prod.fst).toFinset =
      insert k (m.map Prod.fst).toFinset := by
  ext a
  simp only [List.mem_toFinset, mem_keys_upsertPage, Finset.mem_insert]

theorem dedup_foldl_keys_toFinset (lines : List RawLine) :
    ∀ (m : List (String × PageRec)) (n : Nat),
      (((lines.foldl dedupFold (m, n)).1).map Prod.fst).toFinset =
        (m.map Prod.fst).toFinset ∪ ((recordsOf lines).map dedupKey).toFinset := by
  induction lines with
  | nil => intro m n; simp [recordsOf]
  | cons l ls ih =>
    intro m n
    cases l with
    | blank =>
      rw [List.foldl_cons]
      show (((ls.foldl dedupFold (m, n)).1).map Prod.fst).toFinset = _
      rw [ih m n]
      simp [recordsOf]
    | badJson s =>
      rw [List.foldl_cons]
      show (((ls.foldl dedupFold (m, n)).1).map Prod.fst).toFinset = _
      rw [ih m n]
      simp [recordsOf]
    | record r =>
      rw [List.foldl_cons]
      show (((ls.foldl dedupFold (upsertPage m (dedupKey r) r, n + 1)).1).map
        Prod.fst).toFinset = _
      rw [ih _ _, keys_upsertPage_toFinset]
      simp only [recordsOf, List.filterMap_cons]
      rw [List.map_cons, List.toFinset_cons]
      ext a
      simp only [Finset.mem_union, Finset.mem_insert]
      tauto

theorem upsertPage_entries_key {m : List (String × PageRec)} {k : String}
    {r : PageRec} (hm : ∀ e ∈ m, dedupKey e.2 = e.1) (hk : dedupKey r = k) :
    ∀ e ∈ upsertPage m k r, dedupKey e.2 = e.1 := by
  induction m with
  | nil =>
    intro e he
    simp only [upsertPage, List.mem_singleton] at he
    rw [he]
    exact hk
  | cons e0 rest ih =>
    intro e he
    by_cases h0 : e0.1 = k
    · simp only [upsertPage, if_pos h0, List.mem_cons] at he
      rcases he with he | he
      · rw [he]; exact hk
      · exact hm e (List.mem_cons_of_mem _ he)
    · simp only [upsertPage, if_neg h0, List.mem_cons] at he
      rcases he with he | he
      · rw [he]; exact hm e0 (List.mem_cons_self _ _)
      · exact ih (fun x hx => hm x (List.mem_cons_of_mem _ hx)) e he

theorem dedup_foldl_entries_key (lines : List RawLine) :
    ∀ (m : List (String × PageRec)) (n : Nat),
      (∀ e ∈ m, dedupKey e.2 = e.1) →
      ∀ e ∈ (lines.foldl dedupFold (m, n)).1, dedupKey e.2 = e.1 := by
  induction lines with
  | nil => intro m n h; simpa using h
  | cons l ls ih =>
    intro m n h
    cases l with
    | blank => simpa [dedupFold] using ih m n h
    | badJson s => simpa [dedupFold] using ih m n h
    | record r =>
      simpa [dedupFold] using ih _ _ (upsertPage_entries_key h rfl)

/-- C3 (amended): in the output of `_deduplicate_pages` there is at most
one record per dedup key - where the key of a record is its
`canonical_url` when that is present and non-empty, and
`canonicalize_url(url)` otherwise; for each key the retained record is
the last occurrence in raw-file order; and the reported `total_deduped`
equals the number of distinct keys among the parseable lines. -/
theorem C3_dedup_law (lines : List RawLine) :
    (((_deduplicate_pages lines).1).map (fun e => dedupKey e.2)).Nodup
  ∧ (∀ k, lookupPage (_deduplicate_pages lines).1 k = lastRecordWith k lines)
  ∧ (_deduplicate_pages lines).2.total_deduped =
      ((recordsOf lines).map dedupKey).toFinset.card := by
  refine ⟨?_, ?_, ?_⟩
  · have hkeys := dedup_foldl_nodup lines [] 0 (by simp)
    have hco := dedup_foldl_entries_key lines [] 0 (by simp)
    have hmap : ((lines.foldl dedupFold ([], 0)).1).map (fun e => dedupKey e.2) =
        ((lines.foldl dedupFold ([], 0)).1).map Prod.fst :=
      List.map_congr_left (fun e he => hco e he)
    show ((lines.foldl dedupFold ([], 0)).1.map (fun e => dedupKey e.2)).Nodup
    rw [hmap]
    exact hkeys
  · intro k
    show lookupPage ((lines.foldl dedupFold ([], 0)).1) k = _
    rw [dedup_foldl_lookup lines [] 0 k]
    cases lastRecordWith k lines <;> rfl
  · have hkeys := dedup_foldl_nodup lines [] 0 (by simp)
    have hfin := dedup_foldl_keys_toFinset lines [] 0
    have hcard := List.toFinset_card_of_nodup hkeys
    rw [hfin] at hcard
    simp only [List.map_nil, List.toFinset_nil, Finset.empty_union] at hcard
    rw [List.length_map] at hcard
    exact hcard.symm

/-- C3 counterexample: two records whose `canonical_url` field is
present but empty.  The code keys them by their (distinct) canonicalized
URLs and retains both, while the claim's key - the `canonical_url`
field, with a fallback only when it is absent - is the same empty string
for both, so the claimed "at most one record per key" fails, and the
claimed count of distinct keys (1) differs from the reported deduped
count (2). -/
theorem C3_counterexample :
    ((_deduplicate_pages [RawLine.record c3r1, RawLine.record c3r2]).1.map
      Prod.snd) = [c3r1, c3r2]
    ∧ claimKey c3r1 = claimKey c3r2
    ∧ c3r1 ≠ c3r2
    ∧ (_deduplicate_pages [RawLine.record c3r1, RawLine.record c3r2]).2.total_deduped = 2 := by
  decide

/-! ### C6 - the quality score against the §4.5.2 deduction formula -/

theorem fstepS_zero (s : ℤ) : fstepS 0 s = s := by
  unfold fstepS
  rw [if_pos rfl]

theorem fstepS_F04S (s : ℤ) : fstepS F04S s = fsubS s F04S := by
  unfold fstepS
  rw [if_neg (by decide : ¬ (F04S = 0))]

theorem fstepS_F03S (s : ℤ) : fstepS F03S s = fsubS s F03S := by
  unfold fstepS
  rw [if_neg (by decide : ¬ (F03S = 0))]

theorem fstepS_F02S (s : ℤ) : fstepS F02S s = fsubS s F02S := by
  unfold fstepS
  rw [if_neg (by decide : ¬ (F02S = 0))]

theorem fstepS_F01S (s : ℤ) : fstepS F01S s = fsubS s F01S := by
  unfold fstepS
  rw [if_neg (by decide : ¬ (F01S = 0))]

theorem lenStep_fst (mc len : Nat) (sr : ℤ × List String) :
    (lenStep mc len sr).1 = fstepS (sel1 mc len).1 sr.1 := by
  unfold lenStep sel1
  split_ifs <;> simp [fstepS_F04S, fstepS_F01S, fstepS_zero]

theorem boilerplateStep_fst (r : ℚ) (text : String) (sr : ℤ × List String) :
    (boilerplateStep r text sr).1 = fstepS (sel2 r text).1 sr.1 := by
  unfold boilerplateStep sel2
  split_ifs <;> simp [fstepS_F03S, fstepS_F01S, fstepS_zero]

theorem linkStep_fst (r : ℚ) (text html : String) (sr : ℤ × List String) :
    (linkStep r text html sr).1 = fstepS (sel3 r text html).1 sr.1 := by
  unfold linkStep sel3
  split_ifs <;> simp [fstepS_F03S, fstepS_F01S, fstepS_zero]

theorem dupStep_fst (text : String) (sr : ℤ × List String) :
    (dupStep text sr).1 = fstepS (sel4 text).1 sr.1 := by
  unfold dupStep sel4
  split_ifs <;> simp [fstepS_F02S, fstepS_zero]

theorem densityStep_fst (text html : String) (sr : ℤ × List String) :
    (densityStep text html sr).1 = fstepS (sel5 text html).1 sr.1 := by
  unfold densityStep sel5
  split_ifs <;> simp [fstepS_F02S, fstepS_zero]

theorem titleStep_fst (title : String) (sr : ℤ × List String) :
    (titleStep title sr).1 = fstepS (sel6 title).1 sr.1 := by
  unfold titleStep sel6
  split_ifs <;> simp [fstepS_F01S, fstepS_zero]

theorem score_content_eval (text html title : String) (mc : Nat) (mld mbr : ℚ) :
    (score_content text html title mc mld mbr).score =
      scaledToQ (pyRound3S (clampS ((titleStep title (densityStep text html (dupStep text
        (linkStep mld text html (boilerplateStep mbr text
          (lenStep mc text.length (oneS, []))))))).1)))
    ∧ (score_content text html title mc mld mbr).passed =
      (decide (halfS ≤ clampS ((titleStep title (densityStep text html (dupStep text
        (linkStep mld text html (boilerplateStep mbr text
          (lenStep mc text.length (oneS, []))))))).1)) && decide (mc ≤ text.length)) := by
  constructor <;> rfl

theorem chain_eq (text html title : String) (mc : Nat) (mld mbr : ℚ) :
    (titleStep title (densityStep text html (dupStep text
      (linkStep mld text html (boilerplateStep mbr text
        (lenStep mc text.length (oneS, []))))))).1 =
      chainS (sel1 mc text.length) (sel2 mbr text) (sel3 mld text html)
        (sel4 text) (sel5 text html) (sel6 title) := by
  unfold chainS
  rw [titleStep_fst, densityStep_fst, dupStep_fst, linkStep_fst, boilerplateStep_fst,
    lenStep_fst]

theorem sel1_mem (mc len : Nat) : sel1 mc len ∈ dOpts1 := by
  unfold sel1 dOpts1
  split_ifs <;> simp

theorem sel2_mem (r : ℚ) (text : String) : sel2 r text ∈ dOpts2 := by
  unfold sel2 dOpts2
  split_ifs <;> simp

theorem sel3_mem (r : ℚ) (text html : String) : sel3 r text html ∈ dOpts2 := by
  unfold sel3 dOpts2
  split_ifs <;> simp

theorem sel4_mem (text : String) : sel4 text ∈ dOpts4 := by
  unfold sel4 dOpts4
  split_ifs <;> simp

theorem sel5_mem (text html : String) : sel5 text html ∈ dOpts4 := by
  unfold sel5 dOpts4
  split_ifs <;> simp

theorem sel6_mem (title : String) : sel6 title ∈ dOpts6 := by
  unfold sel6 dOpts6
  split_ifs <;> simp

theorem chain_enum : ∀ p1 ∈ dOpts1, ∀ p2 ∈ dOpts2, ∀ p3 ∈ dOpts2,
    ∀ p4 ∈ dOpts4, ∀ p5 ∈ dOpts4, ∀ p6 ∈ dOpts6,
    pyRound3S (clampS (chainS p1 p2 p3 p4 p5 p6)) =
      f64fromPQS (clampT (sumT p1 p2 p3 p4 p5 p6) : ℤ) 10
    ∧ (halfS ≤ clampS (chainS p1 p2 p3 p4 p5 p6) → 5 ≤ clampT (sumT p1 p2 p3 p4 p5 p6))
    ∧ (5 < clampT (sumT p1 p2 p3 p4 p5 p6) → halfS ≤ clampS (chainS p1 p2 p3 p4 p5 p6)) := by
  decide

theorem claim_addend1 (len : Nat) :
    (if len < 200 then (2:ℚ)/5 else if len < 400 then 1/10 else 0) =
      ((sel1 200 len).2 : ℚ) / 10 := by
  unfold sel1
  have h : (200:Nat) * 2 = 400 := by norm_num
  rw [h]
  split_ifs <;> norm_num

theorem claim_addend2 (text : String) :
    (if text ≠ "" then
      (if boilerplateDensity text > 3/10 then (3:ℚ)/10
       else if boilerplateDensity text > 3/20 then 1/10 else 0) else 0) =
      ((sel2 (3/10) text).2 : ℚ) / 10 := by
  unfold sel2
  have h : (3:ℚ)/10 * (1/2) = 3/20 := by norm_num
  rw [h]
  split_ifs <;> norm_num

theorem claim_addend3 (text html : String) :
    (if html ≠ "" then
      (if calculate_link_density text html > 1/2 then (3:ℚ)/10
       else if calculate_link_density text html > 7/20 then 1/10 else 0) else 0) =
      ((sel3 (1/2) text html).2 : ℚ) / 10 := by
  unfold sel3
  have h : (1:ℚ)/2 * (7/10) = 7/20 := by norm_num
  rw [h]
  split_ifs <;> norm_num

theorem claim_addend4 (text : String) :
    (if text ≠ "" then
      (if duplicateLineRatio text > 1/5 then (1:ℚ)/5 else 0) else 0) =
      ((sel4 text).2 : ℚ) / 10 := by
  unfold sel4
  split_ifs <;> norm_num

theorem claim_addend5 (text html : String) :
    (if html ≠ "" then
      (if calculate_text_density text html < 1/20 then (1:ℚ)/5 else 0) else 0) =
      ((sel5 text html).2 : ℚ) / 10 := by
  unfold sel5
  split_ifs <;> norm_num

theorem claim_addend6 (title : String) :
    (if title = "" ∨ (pyStrip title).length < 3 then (1:ℚ)/10 else 0) =
      ((sel6 title).2 : ℚ) / 10 := by
  unfold sel6
  split_ifs <;> norm_num

theorem claimDeduction_sumT (text html title : String) :
    claimDeduction text html title =
      ((sumT (sel1 200 text.length) (sel2 (3/10) text) (sel3 (1/2) text html)
        (sel4 text) (sel5 text html) (sel6 title) : ℕ) : ℚ) / 10 := by
  unfold claimDeduction
  rw [claim_addend1, claim_addend2, claim_addend3, claim_addend4, claim_addend5,
    claim_addend6]
  unfold sumT
  push_cast
  ring

theorem clampT_le (t : ℕ) : clampT t ≤ 10 := Nat.sub_le 10 (min 10 t)

theorem clampQ_tenths (t : ℕ) :
    max 0 (min 1 (1 - (t : ℚ) / 10)) = ((clampT t : ℕ) : ℚ) / 10 := by
  unfold clampT
  rcases Nat.le_total t 10 with h | h
  · have ht10 : (t : ℚ) ≤ 10 := by exact_mod_cast h
    have ht0 : (0:ℚ) ≤ (t : ℚ) := Nat.cast_nonneg t
    rw [min_eq_right (by linarith : (1:ℚ) - (t:ℚ)/10 ≤ 1),
      max_eq_right (by linarith : (0:ℚ) ≤ 1 - (t:ℚ)/10),
      min_eq_right h, Nat.cast_sub h]
    push_cast
    ring
  · have ht10 : (10:ℚ) ≤ (t : ℚ) := by exact_mod_cast h
    rw [min_eq_left h,
      min_eq_right (by linarith : (1:ℚ) - (t:ℚ)/10 ≤ 1),
      max_eq_left (by linarith : (1:ℚ) - (t:ℚ)/10 ≤ 0)]
    norm_num

theorem roundTo3_scaled (n t : ℤ)
    (h1 : 100 * t * 2 ^ 70 - 2 ^ 69 < 1000 * n)
    (h2 : 1000 * n < 100 * t * 2 ^ 70 + 2 ^ 69) :
    roundTo3 (scaledToQ n) = (t : ℚ) / 10 := by
  have h70 : (0:ℚ) < 2 ^ 70 := by positivity
  have h1q : 100 * (t:ℚ) * 2 ^ 70 - 2 ^ 69 < 1000 * (n:ℚ) := by exact_mod_cast h1
  have h2q : 1000 * (n:ℚ) < 100 * (t:ℚ) * 2 ^ 70 + 2 ^ 69 := by exact_mod_cast h2
  have hb1 : 100 * (t:ℚ) - 1/2 < (n:ℚ) / 2 ^ 70 * 1000 := by
    rw [div_mul_eq_mul_div, lt_div_iff h70]
    linarith
  have hb2 : (n:ℚ) / 2 ^ 70 * 1000 < 100 * (t:ℚ) + 1/2 := by
    rw [div_mul_eq_mul_div, div_lt_iff h70]
    linarith
  have hr : round ((n:ℚ) / 2 ^ 70 * 1000) = 100 * t := by
    rw [round_eq]
    refine Int.floor_eq_iff.mpr ⟨?_, ?_⟩
    · push_cast
      linarith
    · push_cast
      linarith
  unfold roundTo3 scaledToQ
  rw [hr]
  push_cast
  ring

theorem stored_bounds (t : ℕ) (h : t ≤ 10) :
    100 * (t : ℤ) * 2 ^ 70 - 2 ^ 69 < 1000 * f64fromPQS (t : ℤ) 10
    ∧ 1000 * f64fromPQS (t : ℤ) 10 < 100 * (t : ℤ) * 2 ^ 70 + 2 ^ 69 := by
  interval_cases t <;> constructor <;> decide

theorem roundTo3_stored (t : ℕ) (h : t ≤ 10) :
    roundTo3 (scaledToQ (f64fromPQS (t : ℤ) 10)) = (t : ℚ) / 10 := by
  obtain ⟨h1, h2⟩ := stored_bounds t h
  have hval := roundTo3_scaled (f64fromPQS (t : ℤ) 10) (t : ℤ) h1 h2
  rw [hval]
  push_cast
  ring

/-- C6 counterexample: a 443-character page of twelve identical
boilerplate lines with empty HTML and a good title.  The code takes
exactly the two deductions -0.3 (boilerplate) and -0.2 (duplicate
lines), so the claim's exact score is 1.0 - 0.3 - 0.2 = 0.5 and, with
the length >= 200, the claim asserts passed; the binary64 accumulation
computes 1.0 - 0.3 - 0.2 = 0.49999999999999994 < 0.5, so the program's
passed is False, even though the stored 3-decimal score reads 0.5. -/
theorem C6_counterexample :
    (score_content c6Text "" "Docs Page" 200 (1/2) (3/10)).score = 1/2
    ∧ 200 ≤ c6Text.length
    ∧ (score_content c6Text "" "Docs Page" 200 (1/2) (3/10)).passed = false := by
  have hs1 : sel1 200 c6Text.length = (0, 0) := by decide
  have hs2 : sel2 (3/10) c6Text = (F03S, 3) := by
    have hbd : boilerplateDensity c6Text > 3/10 := by
      unfold boilerplateDensity
      rw [show count_boilerplate_matches c6Text = 1 from by decide,
        show c6Text.length = 443 from by decide]
      push_cast
      rw [max_eq_left (by norm_num : (443:ℚ)/500 ≤ 1)]
      norm_num
    unfold sel2
    rw [if_pos (show c6Text ≠ "" from by decide), if_pos hbd]
  have hs3 : sel3 (1/2) c6Text "" = (0, 0) := by simp [sel3]
  have hs4 : sel4 c6Text = (F02S, 2) := by
    have hdl : duplicateLineRatio c6Text > 1/5 := by
      unfold duplicateLineRatio
      rw [show detect_duplicate_lines c6Text = (11, 12) from by decide]
      show ((11:ℕ):ℚ) / max 1 ((12:ℕ):ℚ) > 1/5
      push_cast
      rw [max_eq_right (by norm_num : (1:ℚ) ≤ 12)]
      norm_num
    unfold sel4
    rw [if_pos (show c6Text ≠ "" from by decide), if_pos hdl]
  have hs5 : sel5 c6Text "" = (0, 0) := by simp [sel5]
  have hs6 : sel6 "Docs Page" = (0, 0) := by decide
  obtain ⟨hscore, hpassed⟩ := score_content_eval c6Text "" "Docs Page" 200 (1/2) (3/10)
  rw [chain_eq] at hscore hpassed
  rw [hs1, hs2, hs3, hs4, hs5, hs6] at hscore hpassed
  refine ⟨?_, by decide, ?_⟩
  · rw [hscore]
    have hval : pyRound3S (clampS (chainS (0, 0) (F03S, 3) (0, 0) (F02S, 2) (0, 0) (0, 0)))
        = halfS := by decide
    rw [hval]
    unfold scaledToQ halfS
    push_cast
    norm_num
  · rw [hpassed]
    have hlt : decide (halfS ≤ clampS (chainS (0, 0) (F03S, 3) (0, 0) (F02S, 2) (0, 0) (0, 0)))
        = false := by decide
    rw [hlt]
    simp

/-- C6 (amended): for every input, rounding the stored score to three
decimals recovers exactly the §4.5.2 formula value - base 1.0 minus
the listed deductions (each applied where its metric is defined),
clamped to [0,1]; `passed` implies the formula score is ≥ 0.5 and the
text length is ≥ 200; and a formula score strictly above 0.5 together
with length ≥ 200 forces `passed`.  Only at a formula score of exactly
0.5 may the binary64 accumulation of the deductions decide `passed`
either way. -/
theorem C6_quality_score_float (text html title : String) :
    roundTo3 ((score_content text html title 200 (1/2) (3/10)).score) =
      claimScore text html title
    ∧ ((score_content text html title 200 (1/2) (3/10)).passed = true →
        (1/2 : ℚ) ≤ claimScore text html title ∧ 200 ≤ text.length)
    ∧ ((1/2 : ℚ) < claimScore text html title ∧ 200 ≤ text.length →
        (score_content text html title 200 (1/2) (3/10)).passed = true) := by
  obtain ⟨hscore, hpassed⟩ := score_content_eval text html title 200 (1/2) (3/10)
  rw [chain_eq] at hscore hpassed
  obtain ⟨hP1, hP2, hP3⟩ := chain_enum _ (sel1_mem 200 text.length) _ (sel2_mem (3/10) text)
    _ (sel3_mem (1/2) text html) _ (sel4_mem text) _ (sel5_mem text html) _ (sel6_mem title)
  have hcs : claimScore text html title =
      ((clampT (sumT (sel1 200 text.length) (sel2 (3/10) text) (sel3 (1/2) text html)
        (sel4 text) (sel5 text html) (sel6 title)) : ℕ) : ℚ) / 10 := by
    unfold claimScore
    rw [claimDeduction_sumT]
    exact clampQ_tenths _
  have hT10 := clampT_le (sumT (sel1 200 text.length) (sel2 (3/10) text)
    (sel3 (1/2) text html) (sel4 text) (sel5 text html) (sel6 title))
  refine ⟨?_, ?_, ?_⟩
  · rw [hscore, hP1, hcs]
    exact roundTo3_stored _ hT10
  · intro hp
    simp only [hpassed, Bool.and_eq_true, decide_eq_true_eq] at hp
    refine ⟨?_, hp.2⟩
    have h5 := hP2 hp.1
    rw [hcs]
    have h5q : ((5:ℕ):ℚ) ≤ ((clampT (sumT (sel1 200 text.length) (sel2 (3/10) text)
        (sel3 (1/2) text html) (sel4 text) (sel5 text html) (sel6 title)) : ℕ) : ℚ) :=
      Nat.cast_le.mpr h5
    push_cast at h5q
    linarith
  · rintro ⟨hgt, hlen⟩
    simp only [hpassed, Bool.and_eq_true, decide_eq_true_eq]
    refine ⟨hP3 ?_, hlen⟩
    rw [hcs] at hgt
    by_contra hno
    push_neg at hno
    have hq : ((clampT (sumT (sel1 200 text.length) (sel2 (3/10) text)
        (sel3 (1/2) text html) (sel4 text) (sel5 text html) (sel6 title)) : ℕ) : ℚ) ≤
        ((5:ℕ):ℚ) := Nat.cast_le.mpr hno
    push_cast at hq
    linarith

/-- C6 witness: a clean 400-character page with a good title takes no
deduction, its formula score 1.0 strictly exceeds 0.5, and the strict
direction of the theorem forces the gate to pass. -/
theorem C6_witness :
    (score_content c6WText "" "Good Title" 200 (1/2) (3/10)).passed = true := by
  have hw1 : sel1 200 c6WText.length = (0, 0) := by decide
  have hw2 : sel2 (3/10) c6WText = (0, 0) := by
    have hbd : boilerplateDensity c6WText = 0 := by
      unfold boilerplateDensity
      rw [show count_boilerplate_matches c6WText = 0 from by decide]
      push_cast
      exact zero_div _
    unfold sel2
    rw [if_pos (show c6WText ≠ "" from by decide), if_neg (by rw [hbd]; norm_num),
      if_neg (by rw [hbd]; norm_num)]
  have hw3 : sel3 (1/2) c6WText "" = (0, 0) := by simp [sel3]
  have hw4 : sel4 c6WText = (0, 0) := by
    have hdl : duplicateLineRatio c6WText = 0 := by
      unfold duplicateLineRatio
      rw [show detect_duplicate_lines c6WText = (0, 1) from by decide]
      show ((0:ℕ):ℚ) / max 1 ((1:ℕ):ℚ) = 0
      push_cast
      exact zero_div _
    unfold sel4
    rw [if_pos (show c6WText ≠ "" from by decide), if_neg (by rw [hdl]; norm_num)]
  have hw5 : sel5 c6WText "" = (0, 0) := by simp [sel5]
  have hw6 : sel6 "Good Title" = (0, 0) := by decide
  have hd : claimDeduction c6WText "" "Good Title" = 0 := by
    rw [claimDeduction_sumT, hw1, hw2, hw3, hw4, hw5, hw6]
    norm_num [sumT]
  apply (C6_quality_score_float c6WText "" "Good Title").2.2
  refine ⟨?_, by decide⟩
  unfold claimScore
  rw [hd, sub_zero, min_self, max_eq_right (by norm_num : (0:ℚ) ≤ 1)]
  norm_num

end Skrapp
